import Mathlib

/-!
Shallow embedding of the escrow contracts of this repository.

Two Solidity contracts are modelled:
* the gas-abstracted, meta-transaction variant (`contract Escrow` with
  EIP-712 signed actions, a gas reimbursement pool and a flat arbiter fee),
  embedded in namespace `EscrowModel`;
* the simple direct-call variant (`contract Escrow` with plain
  `markDelivered` / `confirmDelivery` / `refund` / `dispute`), embedded in
  namespace `EscrowModel.Simple`;
* the factory `createEscrow` of the gas-abstracted variant.

Addresses are natural numbers (0 plays the role of the zero address),
amounts and timestamps are natural numbers, the ether balance of the
contract is carried explicitly in a `balance` field, and every external
effect (state write, value transfer, deposit) is recorded in an ordered
event trace mirroring the statement order of the Solidity source.
ECDSA recovery over the EIP-712 digest is abstracted as an environment
function from the signed tuple and the raw signature to an address.
-/

namespace EscrowModel

/-- States of the escrow state machine, mirroring enum State of the source. -/
inductive EState
  | awaitingPayment
  | funded
  | delivered
  | complete
  | refunded
  | disputed
  deriving DecidableEq

/-- Meta-transaction action kinds, mirroring enum ActionType of the source. -/
inductive ActionType
  | markDeliveredKind
  | confirmDeliveryKind
  | requestRefundKind
  | raiseDisputeKind
  deriving DecidableEq

/-- Custom errors of both contracts, mirroring the error declarations. -/
inductive Err
  | onlyBuyer
  | onlySeller
  | onlyArbiter
  | onlyRelayer
  | onlyBuyerOrSeller
  | invalidState (current expected : EState)
  | incorrectAmount (sent expected : Nat)
  | deliveryDeadlineNotPassed
  | deliveryDeadlinePassed
  | reviewPeriodNotEnded
  | reviewPeriodEnded
  | noArbiterSet
  | invalidWinner
  | invalidSignature
  | signatureExpired
  | invalidNonce
  | insufficientGasPool
  | invalidSigner
  | arbiterFeeAlreadyPaid
  deriving DecidableEq

/-- Observable effects of one operation, in source statement order:
internal state writes, the nonce increment done by the signature
verifier, outgoing value transfers, and incoming deposits. -/
inductive Ev
  | setState (s : EState)
  | setDeliveredAt (t : Nat)
  | setGasPool (v : Nat)
  | feePaidSet
  | incNonce (signer : Nat) (kind : ActionType)
  | transfer (dst amt : Nat)
  | depositEv (who value pool : Nat)
  deriving DecidableEq

/-- The gas-abstracted escrow instance: immutable parameters set by the
constructor, then the mutable machine state, the per-signer per-kind nonce
table and the contract ether balance. -/
structure Escrow where
  buyer : Nat
  seller : Nat
  arbiter : Nat
  escrowAmount : Nat
  deliveryDeadline : Nat
  reviewPeriod : Nat
  maxGasPrice : Nat
  maxGasPerAction : Nat
  arbiterFee : Nat
  state : EState
  deliveredAt : Nat
  gasPoolBalance : Nat
  arbiterFeePaid : Bool
  nonces : Nat → ActionType → Nat
  balance : Nat

/-- Execution environment of one call: the block timestamp, the
transaction gas price, the gas measured for the action (the source
computes startGas - gasleft() and then adds the 21000 base cost), and the
abstract ECDSA recovery over the EIP-712 digest of
(actionType, nonce, deadline) and the raw signature bytes. -/
structure Env where
  now : Nat
  txGasprice : Nat
  gasUsed : Nat
  recover : ActionType → Nat → Nat → Nat → Nat

/-- Terminal states COMPLETE and REFUNDED. -/
def isTerminal : EState → Bool
  | .complete => true
  | .refunded => true
  | _ => false

/-- Amount leaving the contract in one event. -/
def evOut : Ev → Nat
  | .transfer _ amt => amt
  | _ => 0

/-- Amount entering the contract in one event. -/
def evIn : Ev → Nat
  | .depositEv _ value _ => value
  | _ => 0

/-- Total value paid out across a trace. -/
def totalOut (evs : List Ev) : Nat :=
  (evs.map evOut).sum

/-- Total value deposited across a trace. -/
def totalIn (evs : List Ev) : Nat :=
  (evs.map evIn).sum

/-- Increment of the nonce table at one (signer, action kind) key, as done
by the signature verifier on an accepted signature. -/
def bumpNonce (signer : Nat) (kind : ActionType) (e : Escrow) : Escrow :=
  { e with nonces := fun s k =>
      if s = signer ∧ k = kind then e.nonces s k + 1 else e.nonces s k }

/-- Gas reimbursement paid to the relayer by the internal reimbursement
helper: the measured gas plus the 21000 base cost, capped at
maxGasPerAction, times the transaction gas price capped at maxGasPrice,
the product further capped at the remaining gas pool. -/
def gasRefundAmount (env : Env) (e : Escrow) : Nat :=
  min (min (env.gasUsed + 21000) e.maxGasPerAction * min env.txGasprice e.maxGasPrice)
    e.gasPoolBalance

/-- Internal helper mirroring the gas reimbursement routine of the source:
cap the gas price, cap the gas used, take the product, cap it at the
remaining pool, and when positive deduct it from the pool and send it to
the caller (the relayer). -/
def reimburseGas (env : Env) (relayer : Nat) (e : Escrow) : Escrow × List Ev :=
  let gasUsed := env.gasUsed + 21000
  let effectiveGasPrice := if env.txGasprice < e.maxGasPrice then env.txGasprice else e.maxGasPrice
  let effectiveGasUsed := if gasUsed < e.maxGasPerAction then gasUsed else e.maxGasPerAction
  let refund0 := effectiveGasUsed * effectiveGasPrice
  let refund := if refund0 > e.gasPoolBalance then e.gasPoolBalance else refund0
  if 0 < refund then
    ({ e with gasPoolBalance := e.gasPoolBalance - refund, balance := e.balance - refund },
      [Ev.setGasPool (e.gasPoolBalance - refund), Ev.transfer relayer refund])
  else (e, [])

/-- Internal helper mirroring the one-time arbiter fee payment: a no-op
when the latch is already set or the fee is zero, otherwise it sets the
latch and sends exactly the fee to the arbiter. -/
def payArbiterFee (e : Escrow) : Escrow × List Ev :=
  if e.arbiterFeePaid then (e, [])
  else if e.arbiterFee = 0 then (e, [])
  else ({ e with arbiterFeePaid := true, balance := e.balance - e.arbiterFee },
    [Ev.feePaidSet, Ev.transfer e.arbiter e.arbiterFee])

/-- Internal helper mirroring the gas pool refund: when the pool is
positive, zero it and send the remainder to the buyer. -/
def refundGasPool (e : Escrow) : Escrow × List Ev :=
  if 0 < e.gasPoolBalance then
    ({ e with gasPoolBalance := 0, balance := e.balance - e.gasPoolBalance },
      [Ev.setGasPool 0, Ev.transfer e.buyer e.gasPoolBalance])
  else (e, [])

/-- Buyer deposit of escrow amount + arbiter fee + gas pool, mirroring the
payable deposit function of the gas-abstracted variant. -/
def deposit (sender value gasPool : Nat) (e : Escrow) : Except Err (Escrow × List Ev) :=
  if sender ≠ e.buyer then .error .onlyBuyer
  else if e.state ≠ .awaitingPayment then .error (.invalidState e.state .awaitingPayment)
  else if value ≠ e.escrowAmount + e.arbiterFee + gasPool then
    .error (.incorrectAmount value (e.escrowAmount + e.arbiterFee + gasPool))
  else .ok ({ e with gasPoolBalance := gasPool, state := .funded, balance := e.balance + value },
    [Ev.setGasPool gasPool, Ev.setState .funded, Ev.depositEv sender value gasPool])

/-- Meta-transaction marking delivery, signed by the seller and submitted
by the relayer.  The signature checks of the internal verifier (nonce
equality, then recovery) are inlined in source order. -/
def metaMarkDelivered (env : Env) (sender signature nonce deadline : Nat) (e : Escrow) :
    Except Err (Escrow × List Ev) :=
  if sender ≠ e.arbiter then .error .onlyRelayer
  else if e.state ≠ .funded then .error (.invalidState e.state .funded)
  else if deadline < env.now then .error .signatureExpired
  else if e.deliveryDeadline < env.now then .error .deliveryDeadlinePassed
  else if e.nonces e.seller .markDeliveredKind ≠ nonce then .error .invalidNonce
  else if env.recover .markDeliveredKind nonce deadline signature ≠ e.seller then
    .error .invalidSignature
  else
    let e2 := { bumpNonce e.seller ActionType.markDeliveredKind e with
                state := EState.delivered, deliveredAt := env.now }
    let r := reimburseGas env sender e2
    .ok (r.1,
      [Ev.incNonce e.seller ActionType.markDeliveredKind, Ev.setState EState.delivered,
       Ev.setDeliveredAt env.now] ++ r.2)

/-- Meta-transaction confirming delivery, signed by the buyer and
submitted by the relayer: transition to COMPLETE, reimburse gas, pay the
arbiter fee once, refund the remaining gas pool to the buyer, and send the
escrow amount to the seller, in source order. -/
def metaConfirmDelivery (env : Env) (sender signature nonce deadline : Nat) (e : Escrow) :
    Except Err (Escrow × List Ev) :=
  if sender ≠ e.arbiter then .error .onlyRelayer
  else if e.state ≠ .delivered then .error (.invalidState e.state .delivered)
  else if deadline < env.now then .error .signatureExpired
  else if e.deliveredAt + e.reviewPeriod < env.now then .error .reviewPeriodEnded
  else if e.nonces e.buyer .confirmDeliveryKind ≠ nonce then .error .invalidNonce
  else if env.recover .confirmDeliveryKind nonce deadline signature ≠ e.buyer then
    .error .invalidSignature
  else
    let e2 := { bumpNonce e.buyer ActionType.confirmDeliveryKind e with
                state := EState.complete }
    let r3 := reimburseGas env sender e2
    let r4 := payArbiterFee r3.1
    let r5 := refundGasPool r4.1
    .ok ({ r5.1 with balance := r5.1.balance - e.escrowAmount },
      [Ev.incNonce e.buyer ActionType.confirmDeliveryKind, Ev.setState EState.complete]
        ++ r3.2 ++ r4.2 ++ r5.2 ++ [Ev.transfer e.seller e.escrowAmount])

/-- Meta-transaction for a voluntary seller refund, signed by the seller
and submitted by the relayer: transition to REFUNDED, reimburse gas, pay
the arbiter fee once, and send escrow amount plus remaining gas pool to
the buyer. -/
def metaRefund (env : Env) (sender signature nonce deadline : Nat) (e : Escrow) :
    Except Err (Escrow × List Ev) :=
  if sender ≠ e.arbiter then .error .onlyRelayer
  else if e.state ≠ .funded then .error (.invalidState e.state .funded)
  else if deadline < env.now then .error .signatureExpired
  else if e.nonces e.seller .requestRefundKind ≠ nonce then .error .invalidNonce
  else if env.recover .requestRefundKind nonce deadline signature ≠ e.seller then
    .error .invalidSignature
  else
    let e2 := { bumpNonce e.seller ActionType.requestRefundKind e with
                state := EState.refunded }
    let r3 := reimburseGas env sender e2
    let r4 := payArbiterFee r3.1
    let totalRefund := e.escrowAmount + r4.1.gasPoolBalance
    .ok ({ r4.1 with gasPoolBalance := 0, balance := r4.1.balance - totalRefund },
      [Ev.incNonce e.seller ActionType.requestRefundKind, Ev.setState EState.refunded]
        ++ r3.2 ++ r4.2 ++ [Ev.setGasPool 0, Ev.transfer e.buyer totalRefund])

/-- Meta-transaction raising a dispute, signed by the buyer or the seller
and submitted by the relayer. -/
def metaDispute (env : Env) (sender signer signature nonce deadline : Nat) (e : Escrow) :
    Except Err (Escrow × List Ev) :=
  if sender ≠ e.arbiter then .error .onlyRelayer
  else if e.state ≠ .delivered then .error (.invalidState e.state .delivered)
  else if signer ≠ e.buyer ∧ signer ≠ e.seller then .error .invalidSigner
  else if deadline < env.now then .error .signatureExpired
  else if e.deliveredAt + e.reviewPeriod < env.now then .error .reviewPeriodEnded
  else if e.arbiter = 0 then .error .noArbiterSet
  else if e.nonces signer .raiseDisputeKind ≠ nonce then .error .invalidNonce
  else if env.recover .raiseDisputeKind nonce deadline signature ≠ signer then
    .error .invalidSignature
  else
    let e2 := { bumpNonce signer ActionType.raiseDisputeKind e with
                state := EState.disputed }
    let r := reimburseGas env sender e2
    .ok (r.1,
      [Ev.incNonce signer ActionType.raiseDisputeKind, Ev.setState EState.disputed] ++ r.2)

/-- Arbiter resolution of a dispute, called directly by the arbiter:
transition to REFUNDED or COMPLETE according to the winner, reimburse gas,
pay the arbiter fee once, refund the remaining gas pool to the buyer, and
send the escrow amount to the winner. -/
def resolveDispute (env : Env) (sender winner : Nat) (e : Escrow) :
    Except Err (Escrow × List Ev) :=
  if sender ≠ e.arbiter then .error .onlyArbiter
  else if e.state ≠ .disputed then .error (.invalidState e.state .disputed)
  else if winner ≠ e.buyer ∧ winner ≠ e.seller then .error .invalidWinner
  else
    let newState := if winner = e.buyer then EState.refunded else EState.complete
    let e2 := { e with state := newState }
    let r3 := reimburseGas env sender e2
    let r4 := payArbiterFee r3.1
    let r5 := refundGasPool r4.1
    .ok ({ r5.1 with balance := r5.1.balance - e.escrowAmount },
      [Ev.setState newState] ++ r3.2 ++ r4.2 ++ r5.2 ++ [Ev.transfer winner e.escrowAmount])

/-- Caller-agnostic auto-release after the review period: transition to
COMPLETE, pay the arbiter fee once, refund the remaining gas pool to the
buyer, and send the escrow amount to the seller. -/
def claimByTimeout (env : Env) (sender : Nat) (e : Escrow) :
    Except Err (Escrow × List Ev) :=
  if e.state ≠ .delivered then .error (.invalidState e.state .delivered)
  else if env.now ≤ e.deliveredAt + e.reviewPeriod then .error .reviewPeriodNotEnded
  else
    let e2 := { e with state := EState.complete }
    let r4 := payArbiterFee e2
    let r5 := refundGasPool r4.1
    .ok ({ r5.1 with balance := r5.1.balance - e.escrowAmount },
      [Ev.setState EState.complete] ++ r4.2 ++ r5.2 ++ [Ev.transfer e.seller e.escrowAmount])
  -- sender is recorded only in the emitted AutoReleased event; the claim is caller-agnostic

/-- Buyer refund claim after the delivery deadline: transition to
REFUNDED, zero the gas pool, pay the arbiter fee once, and send escrow
amount plus gas pool to the buyer. -/
def claimRefundByTimeout (env : Env) (sender : Nat) (e : Escrow) :
    Except Err (Escrow × List Ev) :=
  if sender ≠ e.buyer then .error .onlyBuyer
  else if e.state ≠ .funded then .error (.invalidState e.state .funded)
  else if env.now ≤ e.deliveryDeadline then .error .deliveryDeadlineNotPassed
  else
    let totalRefund := e.escrowAmount + e.gasPoolBalance
    let e2 := { e with state := EState.refunded, gasPoolBalance := 0 }
    let r4 := payArbiterFee e2
    .ok ({ r4.1 with balance := r4.1.balance - totalRefund },
      [Ev.setState EState.refunded, Ev.setGasPool 0] ++ r4.2
        ++ [Ev.transfer e.buyer totalRefund])

/-- Accessor mirroring the canClaimByTimeout view function. -/
def canClaimByTimeout (now : Nat) (e : Escrow) : Bool :=
  decide (e.state = EState.delivered) && decide (e.deliveredAt + e.reviewPeriod < now)

/-- Accessor mirroring the canClaimRefundByTimeout view function. -/
def canClaimRefundByTimeout (now : Nat) (e : Escrow) : Bool :=
  decide (e.state = EState.funded) && decide (e.deliveryDeadline < now)

/-- Constructor of the gas-abstracted escrow: parameter validation by the
require statements, then either the funded branch (positive sent value,
which must strictly exceed escrow amount + arbiter fee; the excess is the
gas pool) or the unfunded branch starting in AWAITING_PAYMENT.  Require
failures are reported with the require message, the custom error branch
does not arise in this constructor. -/
def mkEscrow (now buyerA sellerA arbiterA escrowAmount deliveryDeadline reviewPeriod
    maxGasPrice maxGasPerAction arbiterFee value : Nat) :
    Except String (Escrow × List Ev) :=
  if buyerA = 0 then .error "Invalid buyer"
  else if sellerA = 0 then .error "Invalid seller"
  else if arbiterA = 0 then .error "Invalid arbiter/relayer"
  else if escrowAmount = 0 then .error "Escrow amount must be > 0"
  else if deliveryDeadline ≤ now then .error "Deadline must be future"
  else if reviewPeriod = 0 then .error "Review period must be > 0"
  else if maxGasPrice = 0 then .error "Max gas price must be > 0"
  else if maxGasPerAction = 0 then .error "Max gas per action must be > 0"
  else if 0 < value then
    if value ≤ escrowAmount + arbiterFee then .error "Must include gas pool"
    else .ok
      ({ buyer := buyerA, seller := sellerA, arbiter := arbiterA,
         escrowAmount := escrowAmount, deliveryDeadline := deliveryDeadline,
         reviewPeriod := reviewPeriod, maxGasPrice := maxGasPrice,
         maxGasPerAction := maxGasPerAction, arbiterFee := arbiterFee,
         state := EState.funded, deliveredAt := 0,
         gasPoolBalance := value - escrowAmount - arbiterFee,
         arbiterFeePaid := false, nonces := fun _ _ => 0, balance := value },
       [Ev.depositEv buyerA value (value - escrowAmount - arbiterFee)])
  else .ok
    ({ buyer := buyerA, seller := sellerA, arbiter := arbiterA,
       escrowAmount := escrowAmount, deliveryDeadline := deliveryDeadline,
       reviewPeriod := reviewPeriod, maxGasPrice := maxGasPrice,
       maxGasPerAction := maxGasPerAction, arbiterFee := arbiterFee,
       state := EState.awaitingPayment, deliveredAt := 0, gasPoolBalance := 0,
       arbiterFeePaid := false, nonces := fun _ _ => 0, balance := 0 },
     [])

/-- Fields of the EscrowCreated discovery event emitted by the factory. -/
structure CreatedRecord where
  escrowBuyer : Nat
  escrowSeller : Nat
  escrowArbiter : Nat
  recEscrowAmount : Nat
  recGasPool : Nat
  recArbiterFee : Nat
  recMaxGasPrice : Nat
  recMaxGasPerAction : Nat
  recDeliveryDeadline : Nat
  recReviewPeriod : Nat
  deriving DecidableEq

/-- Factory operation of the gas-abstracted variant: require the sent
value to be exactly escrow amount + gas pool + arbiter fee, construct the
instance with buyer = caller forwarding the whole value, and emit the
discovery event carrying all constructor parameters. -/
def createEscrow (now sender value sellerA arbiterA escrowAmount gasPool arbiterFee
    maxGasPrice maxGasPerAction deliveryDeadline reviewPeriod : Nat) :
    Except String (Escrow × CreatedRecord) :=
  if value ≠ escrowAmount + gasPool + arbiterFee then .error "Incorrect payment"
  else
    match mkEscrow now sender sellerA arbiterA escrowAmount deliveryDeadline reviewPeriod
        maxGasPrice maxGasPerAction arbiterFee value with
    | .error msg => .error msg
    | .ok (e, _) => .ok (e,
        { escrowBuyer := sender, escrowSeller := sellerA, escrowArbiter := arbiterA,
          recEscrowAmount := escrowAmount, recGasPool := gasPool,
          recArbiterFee := arbiterFee, recMaxGasPrice := maxGasPrice,
          recMaxGasPerAction := maxGasPerAction,
          recDeliveryDeadline := deliveryDeadline, recReviewPeriod := reviewPeriod })

/-- Tagged union of the mutating operations of the gas-abstracted
variant, for the unified step function. -/
inductive Op
  | depositOp (value gasPool : Nat)
  | metaMarkDeliveredOp (signature nonce deadline : Nat)
  | metaConfirmDeliveryOp (signature nonce deadline : Nat)
  | metaRefundOp (signature nonce deadline : Nat)
  | metaDisputeOp (signer signature nonce deadline : Nat)
  | resolveDisputeOp (winner : Nat)
  | claimByTimeoutOp
  | claimRefundByTimeoutOp

/-- One mutating call on the gas-abstracted escrow. -/
def step (env : Env) (sender : Nat) (op : Op) (e : Escrow) :
    Except Err (Escrow × List Ev) :=
  match op with
  | .depositOp value gasPool => deposit sender value gasPool e
  | .metaMarkDeliveredOp s n d => metaMarkDelivered env sender s n d e
  | .metaConfirmDeliveryOp s n d => metaConfirmDelivery env sender s n d e
  | .metaRefundOp s n d => metaRefund env sender s n d e
  | .metaDisputeOp sg s n d => metaDispute env sender sg s n d e
  | .resolveDisputeOp w => resolveDispute env sender w e
  | .claimByTimeoutOp => claimByTimeout env sender e
  | .claimRefundByTimeoutOp => claimRefundByTimeout env sender e

/-- Whether an operation is one of the meta-transaction entry points. -/
def isMetaOp : Op → Bool
  | .metaMarkDeliveredOp _ _ _ => true
  | .metaConfirmDeliveryOp _ _ _ => true
  | .metaRefundOp _ _ _ => true
  | .metaDisputeOp _ _ _ _ => true
  | _ => false

/-- Traces of successful operations: Steps e evs e2 holds when a sequence
of successful calls, each with its own environment, sender and operation,
leads from e to e2 emitting evs. -/
inductive Steps : Escrow → List Ev → Escrow → Prop
  | refl (e : Escrow) : Steps e [] e
  | more {e e2 e3 : Escrow} {evs rest : List Ev} (env : Env) (sender : Nat) (op : Op) :
      step env sender op e = .ok (e2, evs) → Steps e2 rest e3 → Steps e (evs ++ rest) e3

end EscrowModel

namespace EscrowModel.Simple

open EscrowModel

/-- The simple direct-call escrow instance of the dispute-minimized
variant: immutable parameters, machine state, delivery timestamp and the
contract ether balance. -/
structure SEscrow where
  buyer : Nat
  seller : Nat
  arbiter : Nat
  amount : Nat
  deliveryDeadline : Nat
  reviewPeriod : Nat
  state : EState
  deliveredAt : Nat
  balance : Nat
  deriving DecidableEq

/-- Constructor of the simple variant: parameter validation, then the
funded branch (positive sent value, which must equal the amount exactly)
or the unfunded branch starting in AWAITING_PAYMENT. -/
def mk (now buyerA sellerA arbiterA amount deliveryDeadline reviewPeriod value : Nat) :
    Except String (SEscrow × List Ev) :=
  if buyerA = 0 then .error "Invalid buyer"
  else if sellerA = 0 then .error "Invalid seller"
  else if amount = 0 then .error "Amount must be > 0"
  else if deliveryDeadline ≤ now then .error "Deadline must be future"
  else if reviewPeriod = 0 then .error "Review period must be > 0"
  else if 0 < value then
    if value ≠ amount then .error "IncorrectAmount"
    else .ok
      ({ buyer := buyerA, seller := sellerA, arbiter := arbiterA, amount := amount,
         deliveryDeadline := deliveryDeadline, reviewPeriod := reviewPeriod,
         state := EState.funded, deliveredAt := 0, balance := value },
       [Ev.depositEv buyerA value 0])
  else .ok
    ({ buyer := buyerA, seller := sellerA, arbiter := arbiterA, amount := amount,
       deliveryDeadline := deliveryDeadline, reviewPeriod := reviewPeriod,
       state := EState.awaitingPayment, deliveredAt := 0, balance := 0 },
     [])

/-- Buyer deposit of exactly the escrow amount. -/
def deposit (sender value : Nat) (e : SEscrow) : Except Err (SEscrow × List Ev) :=
  if sender ≠ e.buyer then .error .onlyBuyer
  else if e.state ≠ .awaitingPayment then .error (.invalidState e.state .awaitingPayment)
  else if value ≠ e.amount then .error (.incorrectAmount value e.amount)
  else .ok ({ e with state := EState.funded, balance := e.balance + value },
    [Ev.setState EState.funded, Ev.depositEv sender value 0])

/-- Seller marks delivery before the delivery deadline. -/
def markDelivered (now sender : Nat) (e : SEscrow) : Except Err (SEscrow × List Ev) :=
  if sender ≠ e.seller then .error .onlySeller
  else if e.state ≠ .funded then .error (.invalidState e.state .funded)
  else if e.deliveryDeadline < now then .error .deliveryDeadlinePassed
  else .ok ({ e with state := EState.delivered, deliveredAt := now },
    [Ev.setState EState.delivered, Ev.setDeliveredAt now])

/-- Buyer confirms delivery during the review period; the whole contract
balance is sent to the seller. -/
def confirmDelivery (now sender : Nat) (e : SEscrow) : Except Err (SEscrow × List Ev) :=
  if sender ≠ e.buyer then .error .onlyBuyer
  else if e.state ≠ .delivered then .error (.invalidState e.state .delivered)
  else if e.deliveredAt + e.reviewPeriod < now then .error .reviewPeriodEnded
  else .ok ({ e with state := EState.complete, balance := 0 },
    [Ev.setState EState.complete, Ev.transfer e.seller e.balance])

/-- Seller voluntarily refunds the buyer; the whole balance is sent to the
buyer. -/
def refund (now sender : Nat) (e : SEscrow) : Except Err (SEscrow × List Ev) :=
  if sender ≠ e.seller then .error .onlySeller
  else if e.state ≠ .funded then .error (.invalidState e.state .funded)
  else .ok ({ e with state := EState.refunded, balance := 0 },
    [Ev.setState EState.refunded, Ev.transfer e.buyer e.balance])

/-- Caller-agnostic auto-release strictly after the review period. -/
def claimByTimeout (now sender : Nat) (e : SEscrow) : Except Err (SEscrow × List Ev) :=
  if e.state ≠ .delivered then .error (.invalidState e.state .delivered)
  else if now ≤ e.deliveredAt + e.reviewPeriod then .error .reviewPeriodNotEnded
  else .ok ({ e with state := EState.complete, balance := 0 },
    [Ev.setState EState.complete, Ev.transfer e.seller e.balance])

/-- Buyer refund claim strictly after the delivery deadline. -/
def claimRefundByTimeout (now sender : Nat) (e : SEscrow) :
    Except Err (SEscrow × List Ev) :=
  if sender ≠ e.buyer then .error .onlyBuyer
  else if e.state ≠ .funded then .error (.invalidState e.state .funded)
  else if now ≤ e.deliveryDeadline then .error .deliveryDeadlineNotPassed
  else .ok ({ e with state := EState.refunded, balance := 0 },
    [Ev.setState EState.refunded, Ev.transfer e.buyer e.balance])

/-- Buyer or seller raises a dispute during the review period, arbiter
required. -/
def dispute (now sender : Nat) (e : SEscrow) : Except Err (SEscrow × List Ev) :=
  if e.state ≠ .delivered then .error (.invalidState e.state .delivered)
  else if sender ≠ e.buyer ∧ sender ≠ e.seller then .error .onlyBuyerOrSeller
  else if e.arbiter = 0 then .error .noArbiterSet
  else if e.deliveredAt + e.reviewPeriod < now then .error .reviewPeriodEnded
  else .ok ({ e with state := EState.disputed }, [Ev.setState EState.disputed])

/-- Arbiter resolves a dispute, sending the whole balance to the winner. -/
def resolveDispute (now sender winner : Nat) (e : SEscrow) :
    Except Err (SEscrow × List Ev) :=
  if sender ≠ e.arbiter then .error .onlyArbiter
  else if e.state ≠ .disputed then .error (.invalidState e.state .disputed)
  else if winner ≠ e.buyer ∧ winner ≠ e.seller then .error .invalidWinner
  else
    let newState := if winner = e.buyer then EState.refunded else EState.complete
    .ok ({ e with state := newState, balance := 0 },
      [Ev.setState newState, Ev.transfer winner e.balance])

/-- Accessor mirroring canClaimByTimeout of the simple variant. -/
def canClaimByTimeout (now : Nat) (e : SEscrow) : Bool :=
  decide (e.state = EState.delivered) && decide (e.deliveredAt + e.reviewPeriod < now)

/-- Accessor mirroring canClaimRefundByTimeout of the simple variant. -/
def canClaimRefundByTimeout (now : Nat) (e : SEscrow) : Bool :=
  decide (e.state = EState.funded) && decide (e.deliveryDeadline < now)

/-- Tagged union of the mutating operations of the simple variant. -/
inductive SOp
  | depositOp (value : Nat)
  | markDeliveredOp
  | confirmDeliveryOp
  | refundOp
  | claimByTimeoutOp
  | claimRefundByTimeoutOp
  | disputeOp
  | resolveDisputeOp (winner : Nat)

/-- One mutating call on the simple escrow. -/
def sstep (now sender : Nat) (op : SOp) (e : SEscrow) :
    Except Err (SEscrow × List Ev) :=
  match op with
  | .depositOp value => deposit sender value e
  | .markDeliveredOp => markDelivered now sender e
  | .confirmDeliveryOp => confirmDelivery now sender e
  | .refundOp => refund now sender e
  | .claimByTimeoutOp => claimByTimeout now sender e
  | .claimRefundByTimeoutOp => claimRefundByTimeout now sender e
  | .disputeOp => dispute now sender e
  | .resolveDisputeOp w => resolveDispute now sender w e

end EscrowModel.Simple

namespace EscrowModel

/-! ### Proof infrastructure: helper characterizations and trace predicates -/

/-- The gas reimbursement amount computed by the source, written with min. -/
lemma gasRefundAmount_eq_min (env : Env) (e : Escrow) :
    gasRefundAmount env e =
      min (min (env.gasUsed + 21000) e.maxGasPerAction * min env.txGasprice e.maxGasPrice)
        e.gasPoolBalance := by
  rfl

/-- The reimbursement never exceeds the remaining pool. -/
lemma gasRefundAmount_le_pool (env : Env) (e : Escrow) :
    gasRefundAmount env e ≤ e.gasPoolBalance := by
  rw [gasRefundAmount_eq_min]
  exact Nat.min_le_right _ _

/-- Closed form of the gas reimbursement helper. -/
lemma reimburseGas_eq (env : Env) (rel : Nat) (e : Escrow) :
    reimburseGas env rel e =
      ({ e with gasPoolBalance := e.gasPoolBalance - gasRefundAmount env e,
                balance := e.balance - gasRefundAmount env e },
       if 0 < gasRefundAmount env e then
         [Ev.setGasPool (e.gasPoolBalance - gasRefundAmount env e),
          Ev.transfer rel (gasRefundAmount env e)]
       else []) := by
  have hmin1 : (if env.txGasprice < e.maxGasPrice then env.txGasprice else e.maxGasPrice)
      = min env.txGasprice e.maxGasPrice := by
    rw [Nat.min_def]; split <;> split <;> omega
  have hmin2 : (if env.gasUsed + 21000 < e.maxGasPerAction then env.gasUsed + 21000
      else e.maxGasPerAction) = min (env.gasUsed + 21000) e.maxGasPerAction := by
    rw [Nat.min_def]; split <;> split <;> omega
  unfold reimburseGas
  simp only [hmin1, hmin2]
  have hcap : (if min (env.gasUsed + 21000) e.maxGasPerAction * min env.txGasprice e.maxGasPrice
        > e.gasPoolBalance then e.gasPoolBalance
      else min (env.gasUsed + 21000) e.maxGasPerAction * min env.txGasprice e.maxGasPrice)
      = gasRefundAmount env e := by
    rw [gasRefundAmount_eq_min, Nat.min_def]; split <;> split <;> omega
  simp only [hcap]
  by_cases h : 0 < gasRefundAmount env e
  · simp [h]
  · have h0 : gasRefundAmount env e = 0 := by omega
    simp [h, h0]

/-- Closed form of the one-time arbiter fee helper. -/
lemma payArbiterFee_eq (e : Escrow) :
    payArbiterFee e =
      (if e.arbiterFeePaid = true ∨ e.arbiterFee = 0 then (e, [])
       else ({ e with arbiterFeePaid := true, balance := e.balance - e.arbiterFee },
         [Ev.feePaidSet, Ev.transfer e.arbiter e.arbiterFee])) := by
  unfold payArbiterFee
  by_cases h1 : e.arbiterFeePaid <;> by_cases h2 : e.arbiterFee = 0 <;> simp [h1, h2]

/-- Closed form of the gas pool refund helper. -/
lemma refundGasPool_eq (e : Escrow) :
    refundGasPool e =
      (if 0 < e.gasPoolBalance then
        ({ e with gasPoolBalance := 0, balance := e.balance - e.gasPoolBalance },
         [Ev.setGasPool 0, Ev.transfer e.buyer e.gasPoolBalance])
       else (e, [])) := by
  unfold refundGasPool
  split <;> rfl

@[simp] lemma totalOut_nil : totalOut [] = 0 := rfl

@[simp] lemma totalOut_cons (ev : Ev) (evs : List Ev) :
    totalOut (ev :: evs) = evOut ev + totalOut evs := by
  simp [totalOut]

@[simp] lemma totalOut_append (xs ys : List Ev) :
    totalOut (xs ++ ys) = totalOut xs + totalOut ys := by
  simp [totalOut]

@[simp] lemma totalIn_nil : totalIn [] = 0 := rfl

@[simp] lemma totalIn_cons (ev : Ev) (evs : List Ev) :
    totalIn (ev :: evs) = evIn ev + totalIn evs := by
  simp [totalIn]

@[simp] lemma totalIn_append (xs ys : List Ev) :
    totalIn (xs ++ ys) = totalIn xs + totalIn ys := by
  simp [totalIn]

/-- Event classifiers for trace-shape properties. -/
def isTransferEv : Ev → Bool
  | .transfer _ _ => true
  | _ => false

/-- The core internal mutations of an operation: the state-field
transition, the deliveredAt write and the nonce increment. -/
def isCoreWrite : Ev → Bool
  | .setState _ => true
  | .setDeliveredAt _ => true
  | .incNonce _ _ => true
  | _ => false

/-- Every internal state mutation, including the gas pool writes and the
arbiter fee latch. -/
def isAnyWrite : Ev → Bool
  | .setState _ => true
  | .setDeliveredAt _ => true
  | .setGasPool _ => true
  | .feePaidSet => true
  | .incNonce _ _ => true
  | _ => false

/-- Scan of a trace: true when no write selected by w occurs at or after a
transfer (seen records whether a transfer has already occurred). -/
def writesFirst (w : Ev → Bool) : Bool → List Ev → Bool
  | _, [] => true
  | seen, ev :: rest =>
    if seen && w ev then false else writesFirst w (seen || isTransferEv ev) rest

def isFeeEv : Ev → Bool
  | .feePaidSet => true
  | _ => false

def isNonceEv : Ev → Bool
  | .incNonce _ _ => true
  | _ => false

/-- Number of arbiter-fee latch events in a trace. -/
def countFee (evs : List Ev) : Nat :=
  (evs.filter isFeeEv).length

/-- Number of nonce-increment events in a trace. -/
def countNonce (evs : List Ev) : Nat :=
  (evs.filter isNonceEv).length

@[simp] lemma countFee_nil : countFee [] = 0 := rfl

@[simp] lemma countFee_cons (ev : Ev) (evs : List Ev) :
    countFee (ev :: evs) = (if isFeeEv ev then 1 else 0) + countFee evs := by
  simp only [countFee, List.filter_cons]
  split <;> simp <;> omega

@[simp] lemma countFee_append (xs ys : List Ev) :
    countFee (xs ++ ys) = countFee xs + countFee ys := by
  simp [countFee]

@[simp] lemma countNonce_nil : countNonce [] = 0 := rfl

@[simp] lemma countNonce_cons (ev : Ev) (evs : List Ev) :
    countNonce (ev :: evs) = (if isNonceEv ev then 1 else 0) + countNonce evs := by
  simp only [countNonce, List.filter_cons]
  split <;> simp <;> omega

@[simp] lemma countNonce_append (xs ys : List Ev) :
    countNonce (xs ++ ys) = countNonce xs + countNonce ys := by
  simp [countNonce]

/-- A trace with no selected writes passes the scan from any start flag. -/
lemma writesFirst_of_no_writes (w : Ev → Bool) (seen : Bool) (evs : List Ev)
    (h : ∀ ev ∈ evs, w ev = false) : writesFirst w seen evs = true := by
  induction evs generalizing seen with
  | nil => rfl
  | cons ev rest ih =>
    have hev : w ev = false := h ev (by simp)
    simp only [writesFirst, hev, Bool.and_false, if_neg Bool.false_ne_true]
    exact ih _ (fun x hx => h x (by simp [hx]))

/-- A trace made of a transfer-free prefix followed by a write-free suffix
passes the scan. -/
lemma writesFirst_prefix (w : Ev → Bool) (xs ys : List Ev)
    (hxs : ∀ ev ∈ xs, isTransferEv ev = false)
    (hys : ∀ ev ∈ ys, w ev = false) : writesFirst w false (xs ++ ys) = true := by
  induction xs with
  | nil => exact writesFirst_of_no_writes w false ys hys
  | cons ev rest ih =>
    have hev : isTransferEv ev = false := hxs ev (by simp)
    simp only [List.cons_append, writesFirst, Bool.false_and,
      if_neg Bool.false_ne_true, Bool.false_or, hev]
    exact ih (fun x hx => hxs x (by simp [hx]))

end EscrowModel

namespace EscrowModel

/-- Numeric view of the fee latch, for the at-most-once counting. -/
def boolNat : Bool → Nat
  | true => 1
  | false => 0

/-- The transition edges the code actually takes (the amended forward
edge set: it includes FUNDED to REFUNDED, taken by the refund paths). -/
def edgeOK : EState → EState → Bool
  | .awaitingPayment, .funded => true
  | .funded, .delivered => true
  | .funded, .refunded => true
  | .delivered, .complete => true
  | .delivered, .disputed => true
  | .disputed, .complete => true
  | .disputed, .refunded => true
  | _, _ => false

/-- The edge set as written in the claim: a chain
AWAITING_PAYMENT to FUNDED to DELIVERED to one of COMPLETE, REFUNDED,
DISPUTED, and DISPUTED to COMPLETE or REFUNDED.  Stated from the claim
wording, for comparison with what the code takes. -/
def claimedEdge : EState → EState → Bool
  | .awaitingPayment, .funded => true
  | .funded, .delivered => true
  | .delivered, .complete => true
  | .delivered, .refunded => true
  | .delivered, .disputed => true
  | .disputed, .complete => true
  | .disputed, .refunded => true
  | _, _ => false

/-- Value invariant of a reachable gas-abstracted escrow: before funding
the balance and pool are zero; in a live funded state the balance is
exactly escrow amount + gas pool + the unpaid arbiter fee; in a terminal
state the balance and pool are zero and the fee has been settled. -/
def Inv (e : Escrow) : Prop :=
  (e.state = .awaitingPayment →
    e.balance = 0 ∧ e.gasPoolBalance = 0 ∧ e.arbiterFeePaid = false) ∧
  ((e.state = .funded ∨ e.state = .delivered ∨ e.state = .disputed) →
    e.balance = e.escrowAmount + e.gasPoolBalance
      + (if e.arbiterFeePaid then 0 else e.arbiterFee)) ∧
  (isTerminal e.state = true →
    e.balance = 0 ∧ e.gasPoolBalance = 0 ∧ (e.arbiterFeePaid = true ∨ e.arbiterFee = 0))

end EscrowModel

namespace EscrowModel

/-- Fee actually due when the fee helper runs: zero when the latch is set
or the fee is zero, otherwise the arbiter fee. -/
def feeDue (e : Escrow) : Nat :=
  if e.arbiterFeePaid = true ∨ e.arbiterFee = 0 then 0 else e.arbiterFee

@[simp] lemma payArbiterFee_buyer (e : Escrow) : (payArbiterFee e).1.buyer = e.buyer := by
  rw [payArbiterFee_eq]; split <;> rfl

@[simp] lemma payArbiterFee_seller (e : Escrow) : (payArbiterFee e).1.seller = e.seller := by
  rw [payArbiterFee_eq]; split <;> rfl

@[simp] lemma payArbiterFee_arbiter (e : Escrow) : (payArbiterFee e).1.arbiter = e.arbiter := by
  rw [payArbiterFee_eq]; split <;> rfl

@[simp] lemma payArbiterFee_escrowAmount (e : Escrow) :
    (payArbiterFee e).1.escrowAmount = e.escrowAmount := by
  rw [payArbiterFee_eq]; split <;> rfl

@[simp] lemma payArbiterFee_deliveryDeadline (e : Escrow) :
    (payArbiterFee e).1.deliveryDeadline = e.deliveryDeadline := by
  rw [payArbiterFee_eq]; split <;> rfl

@[simp] lemma payArbiterFee_reviewPeriod (e : Escrow) :
    (payArbiterFee e).1.reviewPeriod = e.reviewPeriod := by
  rw [payArbiterFee_eq]; split <;> rfl

@[simp] lemma payArbiterFee_maxGasPrice (e : Escrow) :
    (payArbiterFee e).1.maxGasPrice = e.maxGasPrice := by
  rw [payArbiterFee_eq]; split <;> rfl

@[simp] lemma payArbiterFee_maxGasPerAction (e : Escrow) :
    (payArbiterFee e).1.maxGasPerAction = e.maxGasPerAction := by
  rw [payArbiterFee_eq]; split <;> rfl

@[simp] lemma payArbiterFee_arbiterFee (e : Escrow) :
    (payArbiterFee e).1.arbiterFee = e.arbiterFee := by
  rw [payArbiterFee_eq]; split <;> rfl

@[simp] lemma payArbiterFee_state (e : Escrow) : (payArbiterFee e).1.state = e.state := by
  rw [payArbiterFee_eq]; split <;> rfl

@[simp] lemma payArbiterFee_deliveredAt (e : Escrow) :
    (payArbiterFee e).1.deliveredAt = e.deliveredAt := by
  rw [payArbiterFee_eq]; split <;> rfl

@[simp] lemma payArbiterFee_pool (e : Escrow) :
    (payArbiterFee e).1.gasPoolBalance = e.gasPoolBalance := by
  rw [payArbiterFee_eq]; split <;> rfl

@[simp] lemma payArbiterFee_nonces (e : Escrow) : (payArbiterFee e).1.nonces = e.nonces := by
  rw [payArbiterFee_eq]; split <;> rfl

lemma payArbiterFee_balance (e : Escrow) :
    (payArbiterFee e).1.balance = e.balance - feeDue e := by
  rw [payArbiterFee_eq]; unfold feeDue; split <;> simp

lemma payArbiterFee_out (e : Escrow) : totalOut (payArbiterFee e).2 = feeDue e := by
  rw [payArbiterFee_eq]; unfold feeDue; split <;> simp [evOut]

lemma payArbiterFee_in (e : Escrow) : totalIn (payArbiterFee e).2 = 0 := by
  rw [payArbiterFee_eq]; split <;> simp [evIn]

lemma payArbiterFee_latch (e : Escrow) :
    boolNat e.arbiterFeePaid + countFee (payArbiterFee e).2
      = boolNat (payArbiterFee e).1.arbiterFeePaid := by
  rw [payArbiterFee_eq]
  split
  · simp [isFeeEv]
  · rename_i hc
    have : e.arbiterFeePaid = false := by
      cases h : e.arbiterFeePaid
      · rfl
      · exact absurd (Or.inl h) hc
    simp [this, boolNat, isFeeEv]

lemma payArbiterFee_settled (e : Escrow) :
    (payArbiterFee e).1.arbiterFeePaid = e.arbiterFeePaid
      ∨ (payArbiterFee e).1.arbiterFeePaid = true := by
  rw [payArbiterFee_eq]; split
  · exact Or.inl rfl
  · exact Or.inr rfl

lemma payArbiterFee_terminal_fee (e : Escrow) :
    (payArbiterFee e).1.arbiterFeePaid = true ∨ e.arbiterFee = 0
      ∨ (payArbiterFee e).1.arbiterFeePaid = e.arbiterFeePaid := by
  rw [payArbiterFee_eq]; split
  · rename_i hc
    rcases hc with hc | hc
    · exact Or.inl (by simpa using hc)
    · exact Or.inr (Or.inl hc)
  · exact Or.inl rfl

lemma payArbiterFee_flagOr (e : Escrow) :
    (payArbiterFee e).1.arbiterFeePaid = true ∨ e.arbiterFee = 0 := by
  rw [payArbiterFee_eq]; split
  · rename_i hc
    rcases hc with hc | hc
    · exact Or.inl (by simpa using hc)
    · exact Or.inr hc
  · exact Or.inl rfl

lemma payArbiterFee_countNonce (e : Escrow) : countNonce (payArbiterFee e).2 = 0 := by
  rw [payArbiterFee_eq]; split <;> simp [isNonceEv]

lemma payArbiterFee_noCore (e : Escrow) :
    ∀ ev ∈ (payArbiterFee e).2, isCoreWrite ev = false := by
  rw [payArbiterFee_eq]; split
  · simp
  · intro ev hev
    simp only [List.mem_cons, List.mem_singleton, List.not_mem_nil] at hev
    rcases hev with h | h | h
    · simp [h, isCoreWrite]
    · simp [h, isCoreWrite]
    · cases h

lemma payArbiterFee_feeDue_le (e : Escrow) (h : e.arbiterFeePaid = false) :
    feeDue e ≤ e.arbiterFee := by
  unfold feeDue; split <;> omega

end EscrowModel

namespace EscrowModel

@[simp] lemma reimburseGas_buyer (env : Env) (r : Nat) (e : Escrow) :
    (reimburseGas env r e).1.buyer = e.buyer := by
  rw [reimburseGas_eq]

@[simp] lemma reimburseGas_seller (env : Env) (r : Nat) (e : Escrow) :
    (reimburseGas env r e).1.seller = e.seller := by
  rw [reimburseGas_eq]

@[simp] lemma reimburseGas_arbiter (env : Env) (r : Nat) (e : Escrow) :
    (reimburseGas env r e).1.arbiter = e.arbiter := by
  rw [reimburseGas_eq]

@[simp] lemma reimburseGas_escrowAmount (env : Env) (r : Nat) (e : Escrow) :
    (reimburseGas env r e).1.escrowAmount = e.escrowAmount := by
  rw [reimburseGas_eq]

@[simp] lemma reimburseGas_deliveryDeadline (env : Env) (r : Nat) (e : Escrow) :
    (reimburseGas env r e).1.deliveryDeadline = e.deliveryDeadline := by
  rw [reimburseGas_eq]

@[simp] lemma reimburseGas_reviewPeriod (env : Env) (r : Nat) (e : Escrow) :
    (reimburseGas env r e).1.reviewPeriod = e.reviewPeriod := by
  rw [reimburseGas_eq]

@[simp] lemma reimburseGas_maxGasPrice (env : Env) (r : Nat) (e : Escrow) :
    (reimburseGas env r e).1.maxGasPrice = e.maxGasPrice := by
  rw [reimburseGas_eq]

@[simp] lemma reimburseGas_maxGasPerAction (env : Env) (r : Nat) (e : Escrow) :
    (reimburseGas env r e).1.maxGasPerAction = e.maxGasPerAction := by
  rw [reimburseGas_eq]

@[simp] lemma reimburseGas_arbiterFee (env : Env) (r : Nat) (e : Escrow) :
    (reimburseGas env r e).1.arbiterFee = e.arbiterFee := by
  rw [reimburseGas_eq]

@[simp] lemma reimburseGas_state (env : Env) (r : Nat) (e : Escrow) :
    (reimburseGas env r e).1.state = e.state := by
  rw [reimburseGas_eq]

@[simp] lemma reimburseGas_deliveredAt (env : Env) (r : Nat) (e : Escrow) :
    (reimburseGas env r e).1.deliveredAt = e.deliveredAt := by
  rw [reimburseGas_eq]

@[simp] lemma reimburseGas_flag (env : Env) (r : Nat) (e : Escrow) :
    (reimburseGas env r e).1.arbiterFeePaid = e.arbiterFeePaid := by
  rw [reimburseGas_eq]

@[simp] lemma reimburseGas_nonces (env : Env) (r : Nat) (e : Escrow) :
    (reimburseGas env r e).1.nonces = e.nonces := by
  rw [reimburseGas_eq]

lemma reimburseGas_pool (env : Env) (r : Nat) (e : Escrow) :
    (reimburseGas env r e).1.gasPoolBalance = e.gasPoolBalance - gasRefundAmount env e := by
  rw [reimburseGas_eq]

lemma reimburseGas_balance (env : Env) (r : Nat) (e : Escrow) :
    (reimburseGas env r e).1.balance = e.balance - gasRefundAmount env e := by
  rw [reimburseGas_eq]

lemma reimburseGas_out (env : Env) (r : Nat) (e : Escrow) :
    totalOut (reimburseGas env r e).2 = gasRefundAmount env e := by
  rw [reimburseGas_eq]
  split
  · simp [evOut]
  · simp; omega

lemma reimburseGas_in (env : Env) (r : Nat) (e : Escrow) :
    totalIn (reimburseGas env r e).2 = 0 := by
  rw [reimburseGas_eq]; split <;> simp [evIn]

lemma reimburseGas_countFee (env : Env) (r : Nat) (e : Escrow) :
    countFee (reimburseGas env r e).2 = 0 := by
  rw [reimburseGas_eq]; split <;> simp [isFeeEv]

lemma reimburseGas_countNonce (env : Env) (r : Nat) (e : Escrow) :
    countNonce (reimburseGas env r e).2 = 0 := by
  rw [reimburseGas_eq]; split <;> simp [isNonceEv]

lemma reimburseGas_noCore (env : Env) (r : Nat) (e : Escrow) :
    ∀ ev ∈ (reimburseGas env r e).2, isCoreWrite ev = false := by
  rw [reimburseGas_eq]
  split
  · intro ev hev
    simp only [List.mem_cons, List.mem_singleton, List.not_mem_nil] at hev
    rcases hev with h | h | h
    · simp [h, isCoreWrite]
    · simp [h, isCoreWrite]
    · cases h
  · simp

@[simp] lemma refundGasPool_buyer (e : Escrow) : (refundGasPool e).1.buyer = e.buyer := by
  rw [refundGasPool_eq]; split <;> rfl

@[simp] lemma refundGasPool_seller (e : Escrow) : (refundGasPool e).1.seller = e.seller := by
  rw [refundGasPool_eq]; split <;> rfl

@[simp] lemma refundGasPool_arbiter (e : Escrow) : (refundGasPool e).1.arbiter = e.arbiter := by
  rw [refundGasPool_eq]; split <;> rfl

@[simp] lemma refundGasPool_escrowAmount (e : Escrow) :
    (refundGasPool e).1.escrowAmount = e.escrowAmount := by
  rw [refundGasPool_eq]; split <;> rfl

@[simp] lemma refundGasPool_deliveryDeadline (e : Escrow) :
    (refundGasPool e).1.deliveryDeadline = e.deliveryDeadline := by
  rw [refundGasPool_eq]; split <;> rfl

@[simp] lemma refundGasPool_reviewPeriod (e : Escrow) :
    (refundGasPool e).1.reviewPeriod = e.reviewPeriod := by
  rw [refundGasPool_eq]; split <;> rfl

@[simp] lemma refundGasPool_maxGasPrice (e : Escrow) :
    (refundGasPool e).1.maxGasPrice = e.maxGasPrice := by
  rw [refundGasPool_eq]; split <;> rfl

@[simp] lemma refundGasPool_maxGasPerAction (e : Escrow) :
    (refundGasPool e).1.maxGasPerAction = e.maxGasPerAction := by
  rw [refundGasPool_eq]; split <;> rfl

@[simp] lemma refundGasPool_arbiterFee (e : Escrow) :
    (refundGasPool e).1.arbiterFee = e.arbiterFee := by
  rw [refundGasPool_eq]; split <;> rfl

@[simp] lemma refundGasPool_state (e : Escrow) : (refundGasPool e).1.state = e.state := by
  rw [refundGasPool_eq]; split <;> rfl

@[simp] lemma refundGasPool_deliveredAt (e : Escrow) :
    (refundGasPool e).1.deliveredAt = e.deliveredAt := by
  rw [refundGasPool_eq]; split <;> rfl

@[simp] lemma refundGasPool_flag (e : Escrow) :
    (refundGasPool e).1.arbiterFeePaid = e.arbiterFeePaid := by
  rw [refundGasPool_eq]; split <;> rfl

@[simp] lemma refundGasPool_nonces (e : Escrow) : (refundGasPool e).1.nonces = e.nonces := by
  rw [refundGasPool_eq]; split <;> rfl

@[simp] lemma refundGasPool_pool (e : Escrow) : (refundGasPool e).1.gasPoolBalance = 0 := by
  rw [refundGasPool_eq]; split
  · rfl
  · simp; omega

lemma refundGasPool_balance (e : Escrow) :
    (refundGasPool e).1.balance = e.balance - e.gasPoolBalance := by
  rw [refundGasPool_eq]; split
  · rfl
  · simp; omega

lemma refundGasPool_out (e : Escrow) : totalOut (refundGasPool e).2 = e.gasPoolBalance := by
  rw [refundGasPool_eq]; split
  · simp [evOut]
  · simp; omega

lemma refundGasPool_in (e : Escrow) : totalIn (refundGasPool e).2 = 0 := by
  rw [refundGasPool_eq]; split <;> simp [evIn]

lemma refundGasPool_countFee (e : Escrow) : countFee (refundGasPool e).2 = 0 := by
  rw [refundGasPool_eq]; split <;> simp [isFeeEv]

lemma refundGasPool_countNonce (e : Escrow) : countNonce (refundGasPool e).2 = 0 := by
  rw [refundGasPool_eq]; split <;> simp [isNonceEv]

lemma refundGasPool_noCore (e : Escrow) :
    ∀ ev ∈ (refundGasPool e).2, isCoreWrite ev = false := by
  rw [refundGasPool_eq]
  split
  · intro ev hev
    simp only [List.mem_cons, List.mem_singleton, List.not_mem_nil] at hev
    rcases hev with h | h | h
    · simp [h, isCoreWrite]
    · simp [h, isCoreWrite]
    · cases h
  · simp

@[simp] lemma bumpNonce_buyer (s : Nat) (k : ActionType) (e : Escrow) :
    (bumpNonce s k e).buyer = e.buyer := rfl

@[simp] lemma bumpNonce_seller (s : Nat) (k : ActionType) (e : Escrow) :
    (bumpNonce s k e).seller = e.seller := rfl

@[simp] lemma bumpNonce_arbiter (s : Nat) (k : ActionType) (e : Escrow) :
    (bumpNonce s k e).arbiter = e.arbiter := rfl

@[simp] lemma bumpNonce_escrowAmount (s : Nat) (k : ActionType) (e : Escrow) :
    (bumpNonce s k e).escrowAmount = e.escrowAmount := rfl

@[simp] lemma bumpNonce_deliveryDeadline (s : Nat) (k : ActionType) (e : Escrow) :
    (bumpNonce s k e).deliveryDeadline = e.deliveryDeadline := rfl

@[simp] lemma bumpNonce_reviewPeriod (s : Nat) (k : ActionType) (e : Escrow) :
    (bumpNonce s k e).reviewPeriod = e.reviewPeriod := rfl

@[simp] lemma bumpNonce_maxGasPrice (s : Nat) (k : ActionType) (e : Escrow) :
    (bumpNonce s k e).maxGasPrice = e.maxGasPrice := rfl

@[simp] lemma bumpNonce_maxGasPerAction (s : Nat) (k : ActionType) (e : Escrow) :
    (bumpNonce s k e).maxGasPerAction = e.maxGasPerAction := rfl

@[simp] lemma bumpNonce_arbiterFee (s : Nat) (k : ActionType) (e : Escrow) :
    (bumpNonce s k e).arbiterFee = e.arbiterFee := rfl

@[simp] lemma bumpNonce_state (s : Nat) (k : ActionType) (e : Escrow) :
    (bumpNonce s k e).state = e.state := rfl

@[simp] lemma bumpNonce_deliveredAt (s : Nat) (k : ActionType) (e : Escrow) :
    (bumpNonce s k e).deliveredAt = e.deliveredAt := rfl

@[simp] lemma bumpNonce_pool (s : Nat) (k : ActionType) (e : Escrow) :
    (bumpNonce s k e).gasPoolBalance = e.gasPoolBalance := rfl

@[simp] lemma bumpNonce_flag (s : Nat) (k : ActionType) (e : Escrow) :
    (bumpNonce s k e).arbiterFeePaid = e.arbiterFeePaid := rfl

@[simp] lemma bumpNonce_balance (s : Nat) (k : ActionType) (e : Escrow) :
    (bumpNonce s k e).balance = e.balance := rfl

lemma bumpNonce_same (s : Nat) (k : ActionType) (e : Escrow) :
    (bumpNonce s k e).nonces s k = e.nonces s k + 1 := by
  simp [bumpNonce]

lemma bumpNonce_other (s : Nat) (k : ActionType) (e : Escrow) (s2 : Nat) (k2 : ActionType)
    (h : ¬(s2 = s ∧ k2 = k)) : (bumpNonce s k e).nonces s2 k2 = e.nonces s2 k2 := by
  simp [bumpNonce, h]

end EscrowModel

namespace EscrowModel

/-- The Inv live-state fee summand equals feeDue. -/
lemma feeDue_flag_ite (e : Escrow) :
    (if e.arbiterFeePaid then 0 else e.arbiterFee) = feeDue e := by
  unfold feeDue
  by_cases h : e.arbiterFeePaid <;> by_cases h2 : e.arbiterFee = 0 <;> simp [h, h2]

/-- Soundness facts of one successful claimByTimeout call: guard
inversion, the transition edge, fee latch accounting, trace shape and
value conservation. -/
lemma claimByTimeout_sound {env : Env} {sender : Nat} {e e2 : Escrow} {evs : List Ev}
    (h : claimByTimeout env sender e = .ok (e2, evs)) :
    e.state = .delivered ∧ e2.state = .complete ∧
    e.deliveredAt + e.reviewPeriod < env.now ∧
    boolNat e.arbiterFeePaid + countFee evs = boolNat e2.arbiterFeePaid ∧
    writesFirst isCoreWrite false evs = true ∧
    countNonce evs = 0 ∧
    e2.gasPoolBalance ≤ e.gasPoolBalance ∧
    e2.nonces = e.nonces ∧
    (Inv e → Inv e2 ∧ e2.balance + totalOut evs = e.balance + totalIn evs) := by
  unfold claimByTimeout at h
  split at h
  · exact absurd h (by simp)
  split at h
  · exact absurd h (by simp)
  rename_i hst hnow
  have hstate : e.state = EState.delivered := not_ne_iff.mp hst
  have htime : e.deliveredAt + e.reviewPeriod < env.now := by omega
  simp only [Except.ok.injEq, Prod.mk.injEq] at h
  obtain ⟨he2, hevs⟩ := h
  subst he2
  subst hevs
  have hc_fd : feeDue { e with state := EState.complete } = feeDue e := rfl
  have h4b : (payArbiterFee { e with state := EState.complete }).1.balance
      = e.balance - feeDue e := by
    rw [payArbiterFee_balance, hc_fd]
  have h4p : (payArbiterFee { e with state := EState.complete }).1.gasPoolBalance
      = e.gasPoolBalance := by
    rw [payArbiterFee_pool]
  have h4o : totalOut (payArbiterFee { e with state := EState.complete }).2 = feeDue e := by
    rw [payArbiterFee_out, hc_fd]
  have h4i : totalIn (payArbiterFee { e with state := EState.complete }).2 = 0 :=
    payArbiterFee_in _
  have h5b : (refundGasPool (payArbiterFee { e with state := EState.complete }).1).1.balance
      = (e.balance - feeDue e) - e.gasPoolBalance := by
    rw [refundGasPool_balance, h4b, h4p]
  have h5o : totalOut (refundGasPool (payArbiterFee { e with state := EState.complete }).1).2
      = e.gasPoolBalance := by
    rw [refundGasPool_out, h4p]
  have h5i : totalIn (refundGasPool (payArbiterFee { e with state := EState.complete }).1).2
      = 0 := refundGasPool_in _
  have hl := payArbiterFee_latch { e with state := EState.complete }
  have hflagor := payArbiterFee_flagOr { e with state := EState.complete }
  refine ⟨hstate, by simp, htime, ?_, ?_, ?_, ?_, ?_, ?_⟩
  · simp only [countFee_append, countFee_cons, countFee_nil,
      refundGasPool_countFee, refundGasPool_flag]
    simpa [isFeeEv] using hl
  · have hwf : writesFirst isCoreWrite false
        ([Ev.setState EState.complete] ++
          ((payArbiterFee { e with state := EState.complete }).2 ++
            ((refundGasPool (payArbiterFee { e with state := EState.complete }).1).2 ++
              [Ev.transfer e.seller e.escrowAmount]))) = true := by
      apply writesFirst_prefix
      · intro ev hev
        simp only [List.mem_singleton] at hev
        subst hev
        rfl
      · intro ev hev
        simp only [List.mem_append, List.mem_singleton] at hev
        rcases hev with h | h | h
        · exact payArbiterFee_noCore _ ev h
        · exact refundGasPool_noCore _ ev h
        · subst h
          rfl
    simpa [List.append_assoc] using hwf
  · simp [countNonce_append, payArbiterFee_countNonce, refundGasPool_countNonce, isNonceEv]
  · simp
  · simp
  · intro hInv
    obtain ⟨hAw, hLive, hTerm⟩ := hInv
    have hbal := hLive (Or.inr (Or.inl hstate))
    rw [feeDue_flag_ite] at hbal
    constructor
    · refine ⟨?_, ?_, ?_⟩
      · intro hc
        simp at hc
      · intro hc
        simp at hc
      · intro _
        refine ⟨?_, by simp, ?_⟩
        · simp
          omega
        · rcases hflagor with hf | hf
          · exact Or.inl (by simpa using hf)
          · exact Or.inr (by simpa using hf)
    · simp [evOut, evIn]
      omega

end EscrowModel

namespace EscrowModel

/-- feeDue only depends on the latch and the fee. -/
lemma feeDue_of_parts {x y : Escrow} (h1 : x.arbiterFeePaid = y.arbiterFeePaid)
    (h2 : x.arbiterFee = y.arbiterFee) : feeDue x = feeDue y := by
  unfold feeDue
  rw [h1, h2]

/-- Soundness facts of one successful deposit call. -/
lemma deposit_sound {sender value gasPool : Nat} {e e2 : Escrow} {evs : List Ev}
    (h : deposit sender value gasPool e = .ok (e2, evs)) :
    sender = e.buyer ∧ e.state = .awaitingPayment ∧ e2.state = .funded ∧
    value = e.escrowAmount + e.arbiterFee + gasPool ∧
    boolNat e.arbiterFeePaid + countFee evs = boolNat e2.arbiterFeePaid ∧
    writesFirst isCoreWrite false evs = true ∧
    countNonce evs = 0 ∧
    e2.nonces = e.nonces ∧
    (Inv e → Inv e2 ∧ e2.balance + totalOut evs = e.balance + totalIn evs) := by
  unfold deposit at h
  split at h
  · exact absurd h (by simp)
  split at h
  · exact absurd h (by simp)
  split at h
  · exact absurd h (by simp)
  rename_i hsend hst hval
  have hsender : sender = e.buyer := not_ne_iff.mp hsend
  have hstate : e.state = EState.awaitingPayment := not_ne_iff.mp hst
  have hvalue : value = e.escrowAmount + e.arbiterFee + gasPool := not_ne_iff.mp hval
  simp only [Except.ok.injEq, Prod.mk.injEq] at h
  obtain ⟨he2, hevs⟩ := h
  subst he2
  subst hevs
  refine ⟨hsender, hstate, by simp, hvalue, ?_, ?_, ?_, by simp, ?_⟩
  · simp [isFeeEv]
  · have hwf : writesFirst isCoreWrite false
        ([Ev.setGasPool gasPool, Ev.setState EState.funded,
          Ev.depositEv sender value gasPool] ++ []) = true := by
      apply writesFirst_prefix
      · intro ev hev
        simp only [List.mem_cons, List.not_mem_nil, or_false] at hev
        rcases hev with h | h | h <;> subst h <;> rfl
      · simp
    simpa using hwf
  · simp [isNonceEv]
  · intro hInv
    obtain ⟨hAw, hLive, hTerm⟩ := hInv
    obtain ⟨hb0, hp0, hf0⟩ := hAw hstate
    constructor
    · refine ⟨?_, ?_, ?_⟩
      · intro hc
        simp at hc
      · intro _
        simp [hf0, hb0, hvalue]
        omega
      · intro hc
        simp [isTerminal] at hc
    · simp [evOut, evIn]

/-- Soundness facts of one successful metaMarkDelivered call. -/
lemma metaMarkDelivered_sound {env : Env} {sender sig nonce deadline : Nat}
    {e e2 : Escrow} {evs : List Ev}
    (h : metaMarkDelivered env sender sig nonce deadline e = .ok (e2, evs)) :
    sender = e.arbiter ∧ e.state = .funded ∧ e2.state = .delivered ∧
    env.now ≤ deadline ∧ env.now ≤ e.deliveryDeadline ∧
    e.nonces e.seller .markDeliveredKind = nonce ∧
    env.recover .markDeliveredKind nonce deadline sig = e.seller ∧
    e2.deliveredAt = env.now ∧
    e2.nonces e.seller .markDeliveredKind = e.nonces e.seller .markDeliveredKind + 1 ∧
    (∀ s k, ¬(s = e.seller ∧ k = ActionType.markDeliveredKind) →
      e2.nonces s k = e.nonces s k) ∧
    boolNat e.arbiterFeePaid + countFee evs = boolNat e2.arbiterFeePaid ∧
    writesFirst isCoreWrite false evs = true ∧
    countNonce evs = 1 ∧
    e2.gasPoolBalance ≤ e.gasPoolBalance ∧
    (Inv e → Inv e2 ∧ e2.balance + totalOut evs = e.balance + totalIn evs) := by
  unfold metaMarkDelivered at h
  split at h
  · exact absurd h (by simp)
  split at h
  · exact absurd h (by simp)
  split at h
  · exact absurd h (by simp)
  split at h
  · exact absurd h (by simp)
  split at h
  · exact absurd h (by simp)
  split at h
  · exact absurd h (by simp)
  rename_i hsend hst hexp hdl hn hr
  have hsender : sender = e.arbiter := not_ne_iff.mp hsend
  have hstate : e.state = EState.funded := not_ne_iff.mp hst
  have hnonce : e.nonces e.seller .markDeliveredKind = nonce := not_ne_iff.mp hn
  have hrec : env.recover .markDeliveredKind nonce deadline sig = e.seller := not_ne_iff.mp hr
  simp only [Except.ok.injEq, Prod.mk.injEq] at h
  obtain ⟨he2, hevs⟩ := h
  subst he2
  subst hevs
  have hgb : (reimburseGas env sender
      { bumpNonce e.seller ActionType.markDeliveredKind e with
        state := EState.delivered, deliveredAt := env.now }).1.balance
      = e.balance - gasRefundAmount env e := by
    rw [reimburseGas_balance]
    rfl
  have hgp : (reimburseGas env sender
      { bumpNonce e.seller ActionType.markDeliveredKind e with
        state := EState.delivered, deliveredAt := env.now }).1.gasPoolBalance
      = e.gasPoolBalance - gasRefundAmount env e := by
    rw [reimburseGas_pool]
    rfl
  have hgo : totalOut (reimburseGas env sender
      { bumpNonce e.seller ActionType.markDeliveredKind e with
        state := EState.delivered, deliveredAt := env.now }).2
      = gasRefundAmount env e := by
    rw [reimburseGas_out]
    rfl
  have hgi : totalIn (reimburseGas env sender
      { bumpNonce e.seller ActionType.markDeliveredKind e with
        state := EState.delivered, deliveredAt := env.now }).2 = 0 := reimburseGas_in _ _ _
  have hgle : gasRefundAmount env e ≤ e.gasPoolBalance := gasRefundAmount_le_pool env e
  refine ⟨hsender, hstate, by simp, by omega, by omega, hnonce, hrec, by simp,
    ?_, ?_, ?_, ?_, ?_, ?_, ?_⟩
  · simp [bumpNonce_same]
  · intro s k hk
    simp only [reimburseGas_nonces]
    exact bumpNonce_other _ _ _ _ _ hk
  · simp [reimburseGas_countFee, isFeeEv]
  · have hwf : writesFirst isCoreWrite false
        ([Ev.incNonce e.seller ActionType.markDeliveredKind, Ev.setState EState.delivered,
          Ev.setDeliveredAt env.now] ++
          (reimburseGas env sender
            { bumpNonce e.seller ActionType.markDeliveredKind e with
              state := EState.delivered, deliveredAt := env.now }).2) = true := by
      apply writesFirst_prefix
      · intro ev hev
        simp only [List.mem_cons, List.not_mem_nil, or_false] at hev
        rcases hev with h | h | h <;> subst h <;> rfl
      · exact reimburseGas_noCore _ _ _
    simpa using hwf
  · simp [reimburseGas_countNonce, isNonceEv]
  · rw [hgp]
    omega
  · intro hInv
    obtain ⟨hAw, hLive, hTerm⟩ := hInv
    have hbal := hLive (Or.inl hstate)
    constructor
    · refine ⟨?_, ?_, ?_⟩
      · intro hc
        simp at hc
      · intro _
        rw [hgb, hgp]
        simp
        omega
      · intro hc
        simp [isTerminal] at hc
    · simp only [totalOut_append, totalOut_cons, totalOut_nil, totalIn_append,
        totalIn_cons, totalIn_nil]
      rw [hgb, hgo, hgi]
      simp [evOut, evIn]
      omega

end EscrowModel

namespace EscrowModel

/-- Soundness facts of one successful metaConfirmDelivery call. -/
lemma metaConfirmDelivery_sound {env : Env} {sender sig nonce deadline : Nat}
    {e e2 : Escrow} {evs : List Ev}
    (h : metaConfirmDelivery env sender sig nonce deadline e = .ok (e2, evs)) :
    sender = e.arbiter ∧ e.state = .delivered ∧ e2.state = .complete ∧
    env.now ≤ deadline ∧ env.now ≤ e.deliveredAt + e.reviewPeriod ∧
    e.nonces e.buyer .confirmDeliveryKind = nonce ∧
    env.recover .confirmDeliveryKind nonce deadline sig = e.buyer ∧
    e2.nonces e.buyer .confirmDeliveryKind = e.nonces e.buyer .confirmDeliveryKind + 1 ∧
    (∀ s k, ¬(s = e.buyer ∧ k = ActionType.confirmDeliveryKind) →
      e2.nonces s k = e.nonces s k) ∧
    boolNat e.arbiterFeePaid + countFee evs = boolNat e2.arbiterFeePaid ∧
    writesFirst isCoreWrite false evs = true ∧
    countNonce evs = 1 ∧
    e2.gasPoolBalance ≤ e.gasPoolBalance ∧
    (Inv e → Inv e2 ∧ e2.balance + totalOut evs = e.balance + totalIn evs) := by
  unfold metaConfirmDelivery at h
  split at h
  · exact absurd h (by simp)
  split at h
  · exact absurd h (by simp)
  split at h
  · exact absurd h (by simp)
  split at h
  · exact absurd h (by simp)
  split at h
  · exact absurd h (by simp)
  split at h
  · exact absurd h (by simp)
  rename_i hsend hst hexp hrev hn hr
  have hsender : sender = e.arbiter := not_ne_iff.mp hsend
  have hstate : e.state = EState.delivered := not_ne_iff.mp hst
  have hnonce : e.nonces e.buyer .confirmDeliveryKind = nonce := not_ne_iff.mp hn
  have hrec : env.recover .confirmDeliveryKind nonce deadline sig = e.buyer := not_ne_iff.mp hr
  simp only [Except.ok.injEq, Prod.mk.injEq] at h
  obtain ⟨he2, hevs⟩ := h
  subst he2
  subst hevs
  have h3b : (reimburseGas env sender
      { bumpNonce e.buyer ActionType.confirmDeliveryKind e with
        state := EState.complete }).1.balance = e.balance - gasRefundAmount env e := by
    rw [reimburseGas_balance]
    rfl
  have h3p : (reimburseGas env sender
      { bumpNonce e.buyer ActionType.confirmDeliveryKind e with
        state := EState.complete }).1.gasPoolBalance
      = e.gasPoolBalance - gasRefundAmount env e := by
    rw [reimburseGas_pool]
    rfl
  have h3o : totalOut (reimburseGas env sender
      { bumpNonce e.buyer ActionType.confirmDeliveryKind e with
        state := EState.complete }).2 = gasRefundAmount env e := by
    rw [reimburseGas_out]
    rfl
  have h3i : totalIn (reimburseGas env sender
      { bumpNonce e.buyer ActionType.confirmDeliveryKind e with
        state := EState.complete }).2 = 0 := reimburseGas_in _ _ _
  have h3flag : (reimburseGas env sender
      { bumpNonce e.buyer ActionType.confirmDeliveryKind e with
        state := EState.complete }).1.arbiterFeePaid = e.arbiterFeePaid := by
    rw [reimburseGas_flag]
    rfl
  have h3fd : feeDue (reimburseGas env sender
      { bumpNonce e.buyer ActionType.confirmDeliveryKind e with
        state := EState.complete }).1 = feeDue e :=
    feeDue_of_parts h3flag (by rw [reimburseGas_arbiterFee]; rfl)
  have h4b : (payArbiterFee (reimburseGas env sender
      { bumpNonce e.buyer ActionType.confirmDeliveryKind e with
        state := EState.complete }).1).1.balance
      = (e.balance - gasRefundAmount env e) - feeDue e := by
    rw [payArbiterFee_balance, h3b, h3fd]
  have h4p : (payArbiterFee (reimburseGas env sender
      { bumpNonce e.buyer ActionType.confirmDeliveryKind e with
        state := EState.complete }).1).1.gasPoolBalance
      = e.gasPoolBalance - gasRefundAmount env e := by
    rw [payArbiterFee_pool, h3p]
  have h4o : totalOut (payArbiterFee (reimburseGas env sender
      { bumpNonce e.buyer ActionType.confirmDeliveryKind e with
        state := EState.complete }).1).2 = feeDue e := by
    rw [payArbiterFee_out, h3fd]
  have h4i : totalIn (payArbiterFee (reimburseGas env sender
      { bumpNonce e.buyer ActionType.confirmDeliveryKind e with
        state := EState.complete }).1).2 = 0 := payArbiterFee_in _
  have h5b : (refundGasPool (payArbiterFee (reimburseGas env sender
      { bumpNonce e.buyer ActionType.confirmDeliveryKind e with
        state := EState.complete }).1).1).1.balance
      = ((e.balance - gasRefundAmount env e) - feeDue e)
        - (e.gasPoolBalance - gasRefundAmount env e) := by
    rw [refundGasPool_balance, h4b, h4p]
  have h5o : totalOut (refundGasPool (payArbiterFee (reimburseGas env sender
      { bumpNonce e.buyer ActionType.confirmDeliveryKind e with
        state := EState.complete }).1).1).2
      = e.gasPoolBalance - gasRefundAmount env e := by
    rw [refundGasPool_out, h4p]
  have h5i : totalIn (refundGasPool (payArbiterFee (reimburseGas env sender
      { bumpNonce e.buyer ActionType.confirmDeliveryKind e with
        state := EState.complete }).1).1).2 = 0 := refundGasPool_in _
  have hl := payArbiterFee_latch (reimburseGas env sender
      { bumpNonce e.buyer ActionType.confirmDeliveryKind e with
        state := EState.complete }).1
  rw [h3flag] at hl
  have hflagor := payArbiterFee_flagOr (reimburseGas env sender
      { bumpNonce e.buyer ActionType.confirmDeliveryKind e with
        state := EState.complete }).1
  have hgle : gasRefundAmount env e ≤ e.gasPoolBalance := gasRefundAmount_le_pool env e
  refine ⟨hsender, hstate, by simp, by omega, by omega, hnonce, hrec,
    ?_, ?_, ?_, ?_, ?_, ?_, ?_⟩
  · simp only [refundGasPool_nonces, payArbiterFee_nonces, reimburseGas_nonces]
    have : ({ bumpNonce e.buyer ActionType.confirmDeliveryKind e with
        state := EState.complete } : Escrow).nonces
        = (bumpNonce e.buyer ActionType.confirmDeliveryKind e).nonces := rfl
    rw [this]
    exact bumpNonce_same _ _ _
  · intro s k hk
    simp only [refundGasPool_nonces, payArbiterFee_nonces, reimburseGas_nonces]
    exact bumpNonce_other _ _ _ _ _ hk
  · simp only [countFee_append, countFee_cons, countFee_nil, reimburseGas_countFee,
      refundGasPool_countFee, refundGasPool_flag]
    simpa [isFeeEv] using hl
  · have hwf : writesFirst isCoreWrite false
        ([Ev.incNonce e.buyer ActionType.confirmDeliveryKind, Ev.setState EState.complete] ++
          ((reimburseGas env sender
            { bumpNonce e.buyer ActionType.confirmDeliveryKind e with
              state := EState.complete }).2 ++
            ((payArbiterFee (reimburseGas env sender
              { bumpNonce e.buyer ActionType.confirmDeliveryKind e with
                state := EState.complete }).1).2 ++
              ((refundGasPool (payArbiterFee (reimburseGas env sender
                { bumpNonce e.buyer ActionType.confirmDeliveryKind e with
                  state := EState.complete }).1).1).2 ++
                [Ev.transfer e.seller e.escrowAmount])))) = true := by
      apply writesFirst_prefix
      · intro ev hev
        simp only [List.mem_cons, List.not_mem_nil, or_false] at hev
        rcases hev with h | h <;> subst h <;> rfl
      · intro ev hev
        simp only [List.mem_append, List.mem_singleton] at hev
        rcases hev with h | h | h | h
        · exact reimburseGas_noCore _ _ _ ev h
        · exact payArbiterFee_noCore _ ev h
        · exact refundGasPool_noCore _ ev h
        · subst h
          rfl
    simpa [List.append_assoc] using hwf
  · simp [reimburseGas_countNonce, payArbiterFee_countNonce, refundGasPool_countNonce,
      isNonceEv]
  · simp
  · intro hInv
    obtain ⟨hAw, hLive, hTerm⟩ := hInv
    have hbal := hLive (Or.inr (Or.inl hstate))
    rw [feeDue_flag_ite] at hbal
    constructor
    · refine ⟨?_, ?_, ?_⟩
      · intro hc
        simp at hc
      · intro hc
        simp at hc
      · intro _
        refine ⟨?_, by simp, ?_⟩
        · simp at h5b ⊢
          omega
        · rcases hflagor with hf | hf
          · exact Or.inl (by simpa using hf)
          · rw [reimburseGas_arbiterFee] at hf
            exact Or.inr (by simpa using hf)
    · simp [evOut, evIn] at h3o h3i h4o h4i h5o h5i h5b ⊢
      omega

end EscrowModel

namespace EscrowModel

/-- Soundness facts of one successful metaRefund call. -/
lemma metaRefund_sound {env : Env} {sender sig nonce deadline : Nat}
    {e e2 : Escrow} {evs : List Ev}
    (h : metaRefund env sender sig nonce deadline e = .ok (e2, evs)) :
    sender = e.arbiter ∧ e.state = .funded ∧ e2.state = .refunded ∧
    env.now ≤ deadline ∧
    e.nonces e.seller .requestRefundKind = nonce ∧
    env.recover .requestRefundKind nonce deadline sig = e.seller ∧
    e2.nonces e.seller .requestRefundKind = e.nonces e.seller .requestRefundKind + 1 ∧
    (∀ s k, ¬(s = e.seller ∧ k = ActionType.requestRefundKind) →
      e2.nonces s k = e.nonces s k) ∧
    boolNat e.arbiterFeePaid + countFee evs = boolNat e2.arbiterFeePaid ∧
    writesFirst isCoreWrite false evs = true ∧
    countNonce evs = 1 ∧
    e2.gasPoolBalance ≤ e.gasPoolBalance ∧
    (Inv e → Inv e2 ∧ e2.balance + totalOut evs = e.balance + totalIn evs) := by
  unfold metaRefund at h
  split at h
  · exact absurd h (by simp)
  split at h
  · exact absurd h (by simp)
  split at h
  · exact absurd h (by simp)
  split at h
  · exact absurd h (by simp)
  split at h
  · exact absurd h (by simp)
  rename_i hsend hst hexp hn hr
  have hsender : sender = e.arbiter := not_ne_iff.mp hsend
  have hstate : e.state = EState.funded := not_ne_iff.mp hst
  have hnonce : e.nonces e.seller .requestRefundKind = nonce := not_ne_iff.mp hn
  have hrec : env.recover .requestRefundKind nonce deadline sig = e.seller := not_ne_iff.mp hr
  simp only [Except.ok.injEq, Prod.mk.injEq] at h
  obtain ⟨he2, hevs⟩ := h
  subst he2
  subst hevs
  have h3b : (reimburseGas env sender
      { bumpNonce e.seller ActionType.requestRefundKind e with
        state := EState.refunded }).1.balance = e.balance - gasRefundAmount env e := by
    rw [reimburseGas_balance]
    rfl
  have h3p : (reimburseGas env sender
      { bumpNonce e.seller ActionType.requestRefundKind e with
        state := EState.refunded }).1.gasPoolBalance
      = e.gasPoolBalance - gasRefundAmount env e := by
    rw [reimburseGas_pool]
    rfl
  have h3o : totalOut (reimburseGas env sender
      { bumpNonce e.seller ActionType.requestRefundKind e with
        state := EState.refunded }).2 = gasRefundAmount env e := by
    rw [reimburseGas_out]
    rfl
  have h3i : totalIn (reimburseGas env sender
      { bumpNonce e.seller ActionType.requestRefundKind e with
        state := EState.refunded }).2 = 0 := reimburseGas_in _ _ _
  have h3flag : (reimburseGas env sender
      { bumpNonce e.seller ActionType.requestRefundKind e with
        state := EState.refunded }).1.arbiterFeePaid = e.arbiterFeePaid := by
    rw [reimburseGas_flag]
    rfl
  have h3fd : feeDue (reimburseGas env sender
      { bumpNonce e.seller ActionType.requestRefundKind e with
        state := EState.refunded }).1 = feeDue e :=
    feeDue_of_parts h3flag (by rw [reimburseGas_arbiterFee]; rfl)
  have h4b : (payArbiterFee (reimburseGas env sender
      { bumpNonce e.seller ActionType.requestRefundKind e with
        state := EState.refunded }).1).1.balance
      = (e.balance - gasRefundAmount env e) - feeDue e := by
    rw [payArbiterFee_balance, h3b, h3fd]
  have h4p : (payArbiterFee (reimburseGas env sender
      { bumpNonce e.seller ActionType.requestRefundKind e with
        state := EState.refunded }).1).1.gasPoolBalance
      = e.gasPoolBalance - gasRefundAmount env e := by
    rw [payArbiterFee_pool, h3p]
  have h4o : totalOut (payArbiterFee (reimburseGas env sender
      { bumpNonce e.seller ActionType.requestRefundKind e with
        state := EState.refunded }).1).2 = feeDue e := by
    rw [payArbiterFee_out, h3fd]
  have h4i : totalIn (payArbiterFee (reimburseGas env sender
      { bumpNonce e.seller ActionType.requestRefundKind e with
        state := EState.refunded }).1).2 = 0 := payArbiterFee_in _
  have hl := payArbiterFee_latch (reimburseGas env sender
      { bumpNonce e.seller ActionType.requestRefundKind e with
        state := EState.refunded }).1
  rw [h3flag] at hl
  have hflagor := payArbiterFee_flagOr (reimburseGas env sender
      { bumpNonce e.seller ActionType.requestRefundKind e with
        state := EState.refunded }).1
  have hgle : gasRefundAmount env e ≤ e.gasPoolBalance := gasRefundAmount_le_pool env e
  refine ⟨hsender, hstate, by simp, by omega, hnonce, hrec, ?_, ?_, ?_, ?_, ?_, ?_, ?_⟩
  · simp only [payArbiterFee_nonces, reimburseGas_nonces]
    exact bumpNonce_same _ _ _
  · intro s k hk
    simp only [payArbiterFee_nonces, reimburseGas_nonces]
    exact bumpNonce_other _ _ _ _ _ hk
  · simp only [countFee_append, countFee_cons, countFee_nil, reimburseGas_countFee]
    simpa [isFeeEv] using hl
  · have hwf : writesFirst isCoreWrite false
        ([Ev.incNonce e.seller ActionType.requestRefundKind, Ev.setState EState.refunded] ++
          ((reimburseGas env sender
            { bumpNonce e.seller ActionType.requestRefundKind e with
              state := EState.refunded }).2 ++
            ((payArbiterFee (reimburseGas env sender
              { bumpNonce e.seller ActionType.requestRefundKind e with
                state := EState.refunded }).1).2 ++
              [Ev.setGasPool 0, Ev.transfer e.buyer
                (e.escrowAmount + (payArbiterFee (reimburseGas env sender
                  { bumpNonce e.seller ActionType.requestRefundKind e with
                    state := EState.refunded }).1).1.gasPoolBalance)]))) = true := by
      apply writesFirst_prefix
      · intro ev hev
        simp only [List.mem_cons, List.not_mem_nil, or_false] at hev
        rcases hev with h | h <;> subst h <;> rfl
      · intro ev hev
        simp only [List.mem_append, List.mem_cons, List.not_mem_nil, or_false] at hev
        rcases hev with h | h | h | h
        · exact reimburseGas_noCore _ _ _ ev h
        · exact payArbiterFee_noCore _ ev h
        · subst h
          rfl
        · subst h
          rfl
    simpa [List.append_assoc] using hwf
  · simp [reimburseGas_countNonce, payArbiterFee_countNonce, isNonceEv]
  · simp
  · intro hInv
    obtain ⟨hAw, hLive, hTerm⟩ := hInv
    have hbal := hLive (Or.inl hstate)
    rw [feeDue_flag_ite] at hbal
    constructor
    · refine ⟨?_, ?_, ?_⟩
      · intro hc
        simp at hc
      · intro hc
        simp at hc
      · intro _
        refine ⟨?_, by simp, ?_⟩
        · simp at h4b h4p ⊢
          omega
        · rcases hflagor with hf | hf
          · exact Or.inl (by simpa using hf)
          · rw [reimburseGas_arbiterFee] at hf
            exact Or.inr (by simpa using hf)
    · simp [evOut, evIn] at h3o h3i h4o h4i h4b h4p ⊢
      omega

/-- Soundness facts of one successful metaDispute call. -/
lemma metaDispute_sound {env : Env} {sender signer sig nonce deadline : Nat}
    {e e2 : Escrow} {evs : List Ev}
    (h : metaDispute env sender signer sig nonce deadline e = .ok (e2, evs)) :
    sender = e.arbiter ∧ e.state = .delivered ∧ e2.state = .disputed ∧
    (signer = e.buyer ∨ signer = e.seller) ∧
    env.now ≤ deadline ∧ env.now ≤ e.deliveredAt + e.reviewPeriod ∧ e.arbiter ≠ 0 ∧
    e.nonces signer .raiseDisputeKind = nonce ∧
    env.recover .raiseDisputeKind nonce deadline sig = signer ∧
    e2.nonces signer .raiseDisputeKind = e.nonces signer .raiseDisputeKind + 1 ∧
    (∀ s k, ¬(s = signer ∧ k = ActionType.raiseDisputeKind) →
      e2.nonces s k = e.nonces s k) ∧
    boolNat e.arbiterFeePaid + countFee evs = boolNat e2.arbiterFeePaid ∧
    writesFirst isCoreWrite false evs = true ∧
    countNonce evs = 1 ∧
    e2.gasPoolBalance ≤ e.gasPoolBalance ∧
    (Inv e → Inv e2 ∧ e2.balance + totalOut evs = e.balance + totalIn evs) := by
  unfold metaDispute at h
  split at h
  · exact absurd h (by simp)
  split at h
  · exact absurd h (by simp)
  split at h
  · exact absurd h (by simp)
  split at h
  · exact absurd h (by simp)
  split at h
  · exact absurd h (by simp)
  split at h
  · exact absurd h (by simp)
  split at h
  · exact absurd h (by simp)
  split at h
  · exact absurd h (by simp)
  rename_i hsend hst hsig hexp hrev harb hn hr
  have hsender : sender = e.arbiter := not_ne_iff.mp hsend
  have hstate : e.state = EState.delivered := not_ne_iff.mp hst
  have hsigner : signer = e.buyer ∨ signer = e.seller := by
    by_cases h1 : signer = e.buyer
    · exact Or.inl h1
    · by_cases h2 : signer = e.seller
      · exact Or.inr h2
      · exact absurd ⟨h1, h2⟩ hsig
  have hnonce : e.nonces signer .raiseDisputeKind = nonce := not_ne_iff.mp hn
  have hrec : env.recover .raiseDisputeKind nonce deadline sig = signer := not_ne_iff.mp hr
  simp only [Except.ok.injEq, Prod.mk.injEq] at h
  obtain ⟨he2, hevs⟩ := h
  subst he2
  subst hevs
  have hgb : (reimburseGas env sender
      { bumpNonce signer ActionType.raiseDisputeKind e with
        state := EState.disputed }).1.balance = e.balance - gasRefundAmount env e := by
    rw [reimburseGas_balance]
    rfl
  have hgp : (reimburseGas env sender
      { bumpNonce signer ActionType.raiseDisputeKind e with
        state := EState.disputed }).1.gasPoolBalance
      = e.gasPoolBalance - gasRefundAmount env e := by
    rw [reimburseGas_pool]
    rfl
  have hgo : totalOut (reimburseGas env sender
      { bumpNonce signer ActionType.raiseDisputeKind e with
        state := EState.disputed }).2 = gasRefundAmount env e := by
    rw [reimburseGas_out]
    rfl
  have hgi : totalIn (reimburseGas env sender
      { bumpNonce signer ActionType.raiseDisputeKind e with
        state := EState.disputed }).2 = 0 := reimburseGas_in _ _ _
  have hgle : gasRefundAmount env e ≤ e.gasPoolBalance := gasRefundAmount_le_pool env e
  refine ⟨hsender, hstate, by simp, hsigner, by omega, by omega, harb, hnonce, hrec,
    ?_, ?_, ?_, ?_, ?_, ?_, ?_⟩
  · simp only [reimburseGas_nonces]
    exact bumpNonce_same _ _ _
  · intro s k hk
    simp only [reimburseGas_nonces]
    exact bumpNonce_other _ _ _ _ _ hk
  · simp [reimburseGas_countFee, isFeeEv]
  · have hwf : writesFirst isCoreWrite false
        ([Ev.incNonce signer ActionType.raiseDisputeKind, Ev.setState EState.disputed] ++
          (reimburseGas env sender
            { bumpNonce signer ActionType.raiseDisputeKind e with
              state := EState.disputed }).2) = true := by
      apply writesFirst_prefix
      · intro ev hev
        simp only [List.mem_cons, List.not_mem_nil, or_false] at hev
        rcases hev with h | h <;> subst h <;> rfl
      · exact reimburseGas_noCore _ _ _
    simpa using hwf
  · simp [reimburseGas_countNonce, isNonceEv]
  · rw [hgp]
    omega
  · intro hInv
    obtain ⟨hAw, hLive, hTerm⟩ := hInv
    have hbal := hLive (Or.inr (Or.inl hstate))
    constructor
    · refine ⟨?_, ?_, ?_⟩
      · intro hc
        simp at hc
      · intro _
        rw [hgb, hgp]
        simp
        omega
      · intro hc
        simp [isTerminal] at hc
    · simp only [totalOut_append, totalOut_cons, totalOut_nil, totalIn_append,
        totalIn_cons, totalIn_nil]
      rw [hgb, hgo, hgi]
      simp [evOut, evIn]
      omega

end EscrowModel

namespace EscrowModel

/-- Soundness facts of one successful resolveDispute call. -/
lemma resolveDispute_sound {env : Env} {sender winner : Nat}
    {e e2 : Escrow} {evs : List Ev}
    (h : resolveDispute env sender winner e = .ok (e2, evs)) :
    sender = e.arbiter ∧ e.state = .disputed ∧
    (winner = e.buyer ∨ winner = e.seller) ∧
    e2.state = (if winner = e.buyer then EState.refunded else EState.complete) ∧
    isTerminal e2.state = true ∧
    e2.nonces = e.nonces ∧
    boolNat e.arbiterFeePaid + countFee evs = boolNat e2.arbiterFeePaid ∧
    writesFirst isCoreWrite false evs = true ∧
    countNonce evs = 0 ∧
    e2.gasPoolBalance ≤ e.gasPoolBalance ∧
    (Inv e → Inv e2 ∧ e2.balance + totalOut evs = e.balance + totalIn evs) := by
  unfold resolveDispute at h
  split at h
  · exact absurd h (by simp)
  split at h
  · exact absurd h (by simp)
  split at h
  · exact absurd h (by simp)
  rename_i hsend hst hwin
  have hsender : sender = e.arbiter := not_ne_iff.mp hsend
  have hstate : e.state = EState.disputed := not_ne_iff.mp hst
  have hwinner : winner = e.buyer ∨ winner = e.seller := by
    by_cases h1 : winner = e.buyer
    · exact Or.inl h1
    · by_cases h2 : winner = e.seller
      · exact Or.inr h2
      · exact absurd ⟨h1, h2⟩ hwin
  simp only [Except.ok.injEq, Prod.mk.injEq] at h
  obtain ⟨he2, hevs⟩ := h
  subst he2
  subst hevs
  have h3b : (reimburseGas env sender
      { e with state := if winner = e.buyer then EState.refunded else EState.complete
      }).1.balance = e.balance - gasRefundAmount env e := by
    rw [reimburseGas_balance]
    rfl
  have h3p : (reimburseGas env sender
      { e with state := if winner = e.buyer then EState.refunded else EState.complete
      }).1.gasPoolBalance = e.gasPoolBalance - gasRefundAmount env e := by
    rw [reimburseGas_pool]
    rfl
  have h3o : totalOut (reimburseGas env sender
      { e with state := if winner = e.buyer then EState.refunded else EState.complete
      }).2 = gasRefundAmount env e := by
    rw [reimburseGas_out]
    rfl
  have h3i : totalIn (reimburseGas env sender
      { e with state := if winner = e.buyer then EState.refunded else EState.complete
      }).2 = 0 := reimburseGas_in _ _ _
  have h3flag : (reimburseGas env sender
      { e with state := if winner = e.buyer then EState.refunded else EState.complete
      }).1.arbiterFeePaid = e.arbiterFeePaid := by
    rw [reimburseGas_flag]
  have h3fd : feeDue (reimburseGas env sender
      { e with state := if winner = e.buyer then EState.refunded else EState.complete
      }).1 = feeDue e :=
    feeDue_of_parts h3flag (by rw [reimburseGas_arbiterFee])
  have h4b : (payArbiterFee (reimburseGas env sender
      { e with state := if winner = e.buyer then EState.refunded else EState.complete
      }).1).1.balance = (e.balance - gasRefundAmount env e) - feeDue e := by
    rw [payArbiterFee_balance, h3b, h3fd]
  have h4p : (payArbiterFee (reimburseGas env sender
      { e with state := if winner = e.buyer then EState.refunded else EState.complete
      }).1).1.gasPoolBalance = e.gasPoolBalance - gasRefundAmount env e := by
    rw [payArbiterFee_pool, h3p]
  have h4o : totalOut (payArbiterFee (reimburseGas env sender
      { e with state := if winner = e.buyer then EState.refunded else EState.complete
      }).1).2 = feeDue e := by
    rw [payArbiterFee_out, h3fd]
  have h4i : totalIn (payArbiterFee (reimburseGas env sender
      { e with state := if winner = e.buyer then EState.refunded else EState.complete
      }).1).2 = 0 := payArbiterFee_in _
  have h5b : (refundGasPool (payArbiterFee (reimburseGas env sender
      { e with state := if winner = e.buyer then EState.refunded else EState.complete
      }).1).1).1.balance
      = ((e.balance - gasRefundAmount env e) - feeDue e)
        - (e.gasPoolBalance - gasRefundAmount env e) := by
    rw [refundGasPool_balance, h4b, h4p]
  have h5o : totalOut (refundGasPool (payArbiterFee (reimburseGas env sender
      { e with state := if winner = e.buyer then EState.refunded else EState.complete
      }).1).1).2 = e.gasPoolBalance - gasRefundAmount env e := by
    rw [refundGasPool_out, h4p]
  have h5i : totalIn (refundGasPool (payArbiterFee (reimburseGas env sender
      { e with state := if winner = e.buyer then EState.refunded else EState.complete
      }).1).1).2 = 0 := refundGasPool_in _
  have hl := payArbiterFee_latch (reimburseGas env sender
      { e with state := if winner = e.buyer then EState.refunded else EState.complete }).1
  rw [h3flag] at hl
  have hflagor := payArbiterFee_flagOr (reimburseGas env sender
      { e with state := if winner = e.buyer then EState.refunded else EState.complete }).1
  have hgle : gasRefundAmount env e ≤ e.gasPoolBalance := gasRefundAmount_le_pool env e
  refine ⟨hsender, hstate, hwinner, by simp, ?_, by simp, ?_, ?_, ?_, ?_, ?_⟩
  · simp only []
    have : ({ (refundGasPool (payArbiterFee (reimburseGas env sender
        { e with state := if winner = e.buyer then EState.refunded else EState.complete
        }).1).1).1 with
        balance := (refundGasPool (payArbiterFee (reimburseGas env sender
          { e with state := if winner = e.buyer then EState.refunded else EState.complete
          }).1).1).1.balance - e.escrowAmount } : Escrow).state
        = (if winner = e.buyer then EState.refunded else EState.complete) := by
      simp
    rw [this]
    split <;> rfl
  · simp only [countFee_append, countFee_cons, countFee_nil, reimburseGas_countFee,
      refundGasPool_countFee, refundGasPool_flag]
    simpa [isFeeEv] using hl
  · have hwf : writesFirst isCoreWrite false
        ([Ev.setState (if winner = e.buyer then EState.refunded else EState.complete)] ++
          ((reimburseGas env sender
            { e with state := if winner = e.buyer then EState.refunded else EState.complete
            }).2 ++
            ((payArbiterFee (reimburseGas env sender
              { e with state := if winner = e.buyer then EState.refunded else EState.complete
              }).1).2 ++
              ((refundGasPool (payArbiterFee (reimburseGas env sender
                { e with state := if winner = e.buyer then EState.refunded
                  else EState.complete }).1).1).2 ++
                [Ev.transfer winner e.escrowAmount])))) = true := by
      apply writesFirst_prefix
      · intro ev hev
        simp only [List.mem_singleton] at hev
        subst hev
        rfl
      · intro ev hev
        simp only [List.mem_append, List.mem_singleton] at hev
        rcases hev with h | h | h | h
        · exact reimburseGas_noCore _ _ _ ev h
        · exact payArbiterFee_noCore _ ev h
        · exact refundGasPool_noCore _ ev h
        · subst h
          rfl
    simpa [List.append_assoc] using hwf
  · simp [reimburseGas_countNonce, payArbiterFee_countNonce, refundGasPool_countNonce,
      isNonceEv]
  · simp
  · intro hInv
    obtain ⟨hAw, hLive, hTerm⟩ := hInv
    have hbal := hLive (Or.inr (Or.inr hstate))
    rw [feeDue_flag_ite] at hbal
    constructor
    · refine ⟨?_, ?_, ?_⟩
      · intro hc
        simp at hc
        split at hc <;> simp at hc
      · intro hc
        rcases hc with hc | hc | hc <;> simp at hc <;> split at hc <;> simp at hc
      · intro _
        refine ⟨?_, by simp, ?_⟩
        · simp at h5b ⊢
          omega
        · rcases hflagor with hf | hf
          · exact Or.inl (by simpa using hf)
          · rw [reimburseGas_arbiterFee] at hf
            exact Or.inr (by simpa using hf)
    · simp [evOut, evIn] at h3o h3i h4o h4i h5o h5i h5b ⊢
      omega

/-- Soundness facts of one successful claimRefundByTimeout call. -/
lemma claimRefundByTimeout_sound {env : Env} {sender : Nat} {e e2 : Escrow} {evs : List Ev}
    (h : claimRefundByTimeout env sender e = .ok (e2, evs)) :
    sender = e.buyer ∧ e.state = .funded ∧ e2.state = .refunded ∧
    e.deliveryDeadline < env.now ∧
    boolNat e.arbiterFeePaid + countFee evs = boolNat e2.arbiterFeePaid ∧
    writesFirst isCoreWrite false evs = true ∧
    countNonce evs = 0 ∧
    e2.gasPoolBalance ≤ e.gasPoolBalance ∧
    e2.nonces = e.nonces ∧
    (Inv e → Inv e2 ∧ e2.balance + totalOut evs = e.balance + totalIn evs) := by
  unfold claimRefundByTimeout at h
  split at h
  · exact absurd h (by simp)
  split at h
  · exact absurd h (by simp)
  split at h
  · exact absurd h (by simp)
  rename_i hsend hst hnow
  have hsender : sender = e.buyer := not_ne_iff.mp hsend
  have hstate : e.state = EState.funded := not_ne_iff.mp hst
  have htime : e.deliveryDeadline < env.now := by omega
  simp only [Except.ok.injEq, Prod.mk.injEq] at h
  obtain ⟨he2, hevs⟩ := h
  subst he2
  subst hevs
  have hc_fd : feeDue { e with state := EState.refunded, gasPoolBalance := 0 }
      = feeDue e := rfl
  have h4b : (payArbiterFee
      { e with state := EState.refunded, gasPoolBalance := 0 }).1.balance
      = e.balance - feeDue e := by
    rw [payArbiterFee_balance, hc_fd]
  have h4p : (payArbiterFee
      { e with state := EState.refunded, gasPoolBalance := 0 }).1.gasPoolBalance = 0 := by
    rw [payArbiterFee_pool]
  have h4o : totalOut (payArbiterFee
      { e with state := EState.refunded, gasPoolBalance := 0 }).2 = feeDue e := by
    rw [payArbiterFee_out, hc_fd]
  have h4i : totalIn (payArbiterFee
      { e with state := EState.refunded, gasPoolBalance := 0 }).2 = 0 := payArbiterFee_in _
  have hl := payArbiterFee_latch { e with state := EState.refunded, gasPoolBalance := 0 }
  have hflagor := payArbiterFee_flagOr
    { e with state := EState.refunded, gasPoolBalance := 0 }
  refine ⟨hsender, hstate, by simp, htime, ?_, ?_, ?_, ?_, by simp, ?_⟩
  · simp only [countFee_append, countFee_cons, countFee_nil]
    simpa [isFeeEv] using hl
  · have hwf : writesFirst isCoreWrite false
        ([Ev.setState EState.refunded, Ev.setGasPool 0] ++
          ((payArbiterFee { e with state := EState.refunded, gasPoolBalance := 0 }).2 ++
            [Ev.transfer e.buyer (e.escrowAmount + e.gasPoolBalance)])) = true := by
      apply writesFirst_prefix
      · intro ev hev
        simp only [List.mem_cons, List.not_mem_nil, or_false] at hev
        rcases hev with h | h <;> subst h <;> rfl
      · intro ev hev
        simp only [List.mem_append, List.mem_singleton] at hev
        rcases hev with h | h
        · exact payArbiterFee_noCore _ ev h
        · subst h
          rfl
    simpa [List.append_assoc] using hwf
  · simp [payArbiterFee_countNonce, isNonceEv]
  · simp [h4p]
  · intro hInv
    obtain ⟨hAw, hLive, hTerm⟩ := hInv
    have hbal := hLive (Or.inl hstate)
    rw [feeDue_flag_ite] at hbal
    constructor
    · refine ⟨?_, ?_, ?_⟩
      · intro hc
        simp at hc
      · intro hc
        simp at hc
      · intro _
        refine ⟨?_, by simp [h4p], ?_⟩
        · simp at h4b ⊢
          omega
        · rcases hflagor with hf | hf
          · exact Or.inl (by simpa using hf)
          · exact Or.inr (by simpa using hf)
    · simp [evOut, evIn] at h4o h4i h4b ⊢
      omega

end EscrowModel

namespace EscrowModel

/-- Master soundness of one successful call of the unified step function:
the transition follows a forward edge of the code, the fee latch accounts
for its events, core writes precede all transfers, meta ops burn exactly
one nonce, the pool never grows after funding, and with Inv the value
books balance. -/
theorem step_sound {env : Env} {sender : Nat} {op : Op} {e e2 : Escrow} {evs : List Ev}
    (h : step env sender op e = .ok (e2, evs)) :
    edgeOK e.state e2.state = true ∧
    boolNat e.arbiterFeePaid + countFee evs = boolNat e2.arbiterFeePaid ∧
    writesFirst isCoreWrite false evs = true ∧
    (isMetaOp op = true → countNonce evs = 1) ∧
    (e.state ≠ .awaitingPayment → e2.gasPoolBalance ≤ e.gasPoolBalance) ∧
    (Inv e → Inv e2 ∧ e2.balance + totalOut evs = e.balance + totalIn evs) := by
  cases op with
  | depositOp value gasPool =>
    obtain ⟨hs, hst, hst2, hv, hlatch, hwf, hcn, hnon, hinv⟩ := deposit_sound h
    refine ⟨by rw [hst, hst2]; rfl, hlatch, hwf, by simp [isMetaOp], ?_, hinv⟩
    intro hne
    exact absurd hst hne
  | metaMarkDeliveredOp s n d =>
    obtain ⟨h1, hst, hst2, h2, h3, h4, h5, h6, h7, h8, hlatch, hwf, hcn, hp, hinv⟩ :=
      metaMarkDelivered_sound h
    exact ⟨by rw [hst, hst2]; rfl, hlatch, hwf, fun _ => hcn, fun _ => hp, hinv⟩
  | metaConfirmDeliveryOp s n d =>
    obtain ⟨h1, hst, hst2, h2, h3, h4, h5, h6, h7, hlatch, hwf, hcn, hp, hinv⟩ :=
      metaConfirmDelivery_sound h
    exact ⟨by rw [hst, hst2]; rfl, hlatch, hwf, fun _ => hcn, fun _ => hp, hinv⟩
  | metaRefundOp s n d =>
    obtain ⟨h1, hst, hst2, h2, h3, h4, h5, h6, hlatch, hwf, hcn, hp, hinv⟩ :=
      metaRefund_sound h
    exact ⟨by rw [hst, hst2]; rfl, hlatch, hwf, fun _ => hcn, fun _ => hp, hinv⟩
  | metaDisputeOp sg s n d =>
    obtain ⟨h1, hst, hst2, h2, h3, h4, h5, h6, h7, h8, h9, hlatch, hwf, hcn, hp, hinv⟩ :=
      metaDispute_sound h
    exact ⟨by rw [hst, hst2]; rfl, hlatch, hwf, fun _ => hcn, fun _ => hp, hinv⟩
  | resolveDisputeOp w =>
    obtain ⟨h1, hst, h2, hst2, h3, h4, hlatch, hwf, hcn, hp, hinv⟩ :=
      resolveDispute_sound h
    refine ⟨?_, hlatch, hwf, by simp [isMetaOp], fun _ => hp, hinv⟩
    rw [hst, hst2]
    split <;> rfl
  | claimByTimeoutOp =>
    have h2 : claimByTimeout env sender e = .ok (e2, evs) := h
    obtain ⟨hst, hst2, ht, hlatch, hwf, hcn, hp, hnon, hinv⟩ := claimByTimeout_sound h2
    exact ⟨by rw [hst, hst2]; rfl, hlatch, hwf, by simp [isMetaOp], fun _ => hp, hinv⟩
  | claimRefundByTimeoutOp =>
    obtain ⟨h1, hst, hst2, h2, hlatch, hwf, hcn, hp, hnon, hinv⟩ :=
      claimRefundByTimeout_sound h
    exact ⟨by rw [hst, hst2]; rfl, hlatch, hwf, by simp [isMetaOp], fun _ => hp, hinv⟩

/-- In a terminal state every mutating operation fails. -/
theorem step_terminal {env : Env} {sender : Nat} {op : Op} {e : Escrow}
    (h : isTerminal e.state = true) : (step env sender op e).isOk = false := by
  cases hs : e.state <;> rw [hs] at h <;> simp [isTerminal] at h <;>
    cases op <;>
    simp [step, deposit, metaMarkDelivered, metaConfirmDelivery, metaRefund,
      metaDispute, resolveDispute, claimByTimeout, claimRefundByTimeout, hs,
      Except.isOk, Except.toBool, apply_ite] <;>
    (try (split_ifs <;> rfl))

/-- Fee latch accounting along any successful trace. -/
theorem steps_fee {e e2 : Escrow} {evs : List Ev} (h : Steps e evs e2) :
    boolNat e.arbiterFeePaid + countFee evs = boolNat e2.arbiterFeePaid := by
  induction h with
  | refl e => simp
  | more env sender op hstep hrest ih =>
    have hs := (step_sound hstep).2.1
    simp only [countFee_append]
    omega

/-- Invariant and value conservation along any successful trace. -/
theorem steps_inv {e e2 : Escrow} {evs : List Ev} (h : Steps e evs e2) (hi : Inv e) :
    Inv e2 ∧ e2.balance + totalOut evs = e.balance + totalIn evs := by
  induction h with
  | refl e => exact ⟨hi, by simp⟩
  | more env sender op hstep hrest ih =>
    have hs := (step_sound hstep).2.2.2.2.2 hi
    have hrec := ih hs.1
    refine ⟨hrec.1, ?_⟩
    simp only [totalOut_append, totalIn_append]
    omega

end EscrowModel

namespace EscrowModel

set_option maxHeartbeats 1000000 in
/-- Full characterization of a successful advanced-variant constructor
call: field seeding, validated parameters, the funded/unfunded branch
facts, the invariant and the deposited value. -/
lemma mkEscrow_sound {now b s a A dl rp mgp mga fee value : Nat} {e : Escrow}
    {evs : List Ev}
    (h : mkEscrow now b s a A dl rp mgp mga fee value = .ok (e, evs)) :
    e.buyer = b ∧ e.seller = s ∧ e.arbiter = a ∧ e.escrowAmount = A ∧
    e.deliveryDeadline = dl ∧ e.reviewPeriod = rp ∧ e.maxGasPrice = mgp ∧
    e.maxGasPerAction = mga ∧ e.arbiterFee = fee ∧ e.deliveredAt = 0 ∧
    e.arbiterFeePaid = false ∧ (∀ s2 k, e.nonces s2 k = 0) ∧ e.balance = value ∧
    b ≠ 0 ∧ s ≠ 0 ∧ a ≠ 0 ∧ A ≠ 0 ∧ now < dl ∧ rp ≠ 0 ∧ mgp ≠ 0 ∧ mga ≠ 0 ∧
    (0 < value → A + fee < value ∧ e.state = .funded ∧
      e.gasPoolBalance = value - A - fee ∧
      evs = [Ev.depositEv b value (value - A - fee)]) ∧
    (value = 0 → e.state = .awaitingPayment ∧ e.gasPoolBalance = 0 ∧ evs = []) ∧
    Inv e ∧ totalIn evs = value := by
  unfold mkEscrow at h
  split at h
  · exact absurd h (by simp)
  split at h
  · exact absurd h (by simp)
  split at h
  · exact absurd h (by simp)
  split at h
  · exact absurd h (by simp)
  split at h
  · exact absurd h (by simp)
  split at h
  · exact absurd h (by simp)
  split at h
  · exact absurd h (by simp)
  split at h
  · exact absurd h (by simp)
  rename_i hb hs ha hA hdl hrp hmgp hmga
  split at h
  · rename_i hval
    split at h
    · exact absurd h (by simp)
    rename_i hsum
    simp only [Except.ok.injEq, Prod.mk.injEq] at h
    obtain ⟨he, hevs⟩ := h
    subst he
    subst hevs
    refine ⟨rfl, rfl, rfl, rfl, rfl, rfl, rfl, rfl, rfl, rfl, rfl,
      fun _ _ => rfl, rfl, hb, hs, ha, hA, by omega, hrp, hmgp, hmga,
      fun _ => ⟨by omega, rfl, rfl, rfl⟩, fun hc => absurd hc (by omega), ?_,
      by simp [evIn]⟩
    refine ⟨?_, ?_, ?_⟩
    · intro hc
      simp at hc
    · intro _
      simp
      omega
    · intro hc
      simp [isTerminal] at hc
  · rename_i hval
    simp only [Except.ok.injEq, Prod.mk.injEq] at h
    obtain ⟨he, hevs⟩ := h
    subst he
    subst hevs
    refine ⟨rfl, rfl, rfl, rfl, rfl, rfl, rfl, rfl, rfl, rfl, rfl,
      fun _ _ => rfl, by simp; omega, hb, hs, ha, hA, by omega, hrp, hmgp, hmga,
      fun hc => absurd hc hval, fun _ => ⟨rfl, rfl, rfl⟩, ?_, by simp; omega⟩
    refine ⟨?_, ?_, ?_⟩
    · intro _
      exact ⟨rfl, rfl, rfl⟩
    · intro hc
      rcases hc with hc | hc | hc <;> simp at hc
    · intro hc
      simp [isTerminal] at hc

end EscrowModel

namespace EscrowModel.Simple

open EscrowModel

/-- Every successful simple-variant call follows a forward edge. -/
lemma sstep_edge {now sender : Nat} {op : SOp} {e e2 : SEscrow} {evs : List Ev}
    (h : sstep now sender op e = .ok (e2, evs)) :
    edgeOK e.state e2.state = true := by
  cases op with
  | depositOp v =>
    simp only [sstep] at h
    unfold deposit at h
    split at h
    · exact absurd h (by simp)
    split at h
    · exact absurd h (by simp)
    split at h
    · exact absurd h (by simp)
    rename_i h1 h2 h3
    have hst : e.state = EState.awaitingPayment := not_ne_iff.mp h2
    simp only [Except.ok.injEq, Prod.mk.injEq] at h
    obtain ⟨he2, -⟩ := h
    subst he2
    rw [hst]
    rfl
  | markDeliveredOp =>
    simp only [sstep] at h
    unfold markDelivered at h
    split at h
    · exact absurd h (by simp)
    split at h
    · exact absurd h (by simp)
    split at h
    · exact absurd h (by simp)
    rename_i h1 h2 h3
    have hst : e.state = EState.funded := not_ne_iff.mp h2
    simp only [Except.ok.injEq, Prod.mk.injEq] at h
    obtain ⟨he2, -⟩ := h
    subst he2
    rw [hst]
    rfl
  | confirmDeliveryOp =>
    simp only [sstep] at h
    unfold confirmDelivery at h
    split at h
    · exact absurd h (by simp)
    split at h
    · exact absurd h (by simp)
    split at h
    · exact absurd h (by simp)
    rename_i h1 h2 h3
    have hst : e.state = EState.delivered := not_ne_iff.mp h2
    simp only [Except.ok.injEq, Prod.mk.injEq] at h
    obtain ⟨he2, -⟩ := h
    subst he2
    rw [hst]
    rfl
  | refundOp =>
    simp only [sstep] at h
    unfold refund at h
    split at h
    · exact absurd h (by simp)
    split at h
    · exact absurd h (by simp)
    rename_i h1 h2
    have hst : e.state = EState.funded := not_ne_iff.mp h2
    simp only [Except.ok.injEq, Prod.mk.injEq] at h
    obtain ⟨he2, -⟩ := h
    subst he2
    rw [hst]
    rfl
  | claimByTimeoutOp =>
    simp only [sstep] at h
    unfold claimByTimeout at h
    split at h
    · exact absurd h (by simp)
    split at h
    · exact absurd h (by simp)
    rename_i h1 h2
    have hst : e.state = EState.delivered := not_ne_iff.mp h1
    simp only [Except.ok.injEq, Prod.mk.injEq] at h
    obtain ⟨he2, -⟩ := h
    subst he2
    rw [hst]
    rfl
  | claimRefundByTimeoutOp =>
    simp only [sstep] at h
    unfold claimRefundByTimeout at h
    split at h
    · exact absurd h (by simp)
    split at h
    · exact absurd h (by simp)
    split at h
    · exact absurd h (by simp)
    rename_i h1 h2 h3
    have hst : e.state = EState.funded := not_ne_iff.mp h2
    simp only [Except.ok.injEq, Prod.mk.injEq] at h
    obtain ⟨he2, -⟩ := h
    subst he2
    rw [hst]
    rfl
  | disputeOp =>
    simp only [sstep] at h
    unfold dispute at h
    split at h
    · exact absurd h (by simp)
    split at h
    · exact absurd h (by simp)
    split at h
    · exact absurd h (by simp)
    split at h
    · exact absurd h (by simp)
    rename_i h1 h2 h3 h4
    have hst : e.state = EState.delivered := not_ne_iff.mp h1
    simp only [Except.ok.injEq, Prod.mk.injEq] at h
    obtain ⟨he2, -⟩ := h
    subst he2
    rw [hst]
    rfl
  | resolveDisputeOp w =>
    simp only [sstep] at h
    unfold resolveDispute at h
    split at h
    · exact absurd h (by simp)
    split at h
    · exact absurd h (by simp)
    split at h
    · exact absurd h (by simp)
    rename_i h1 h2 h3
    have hst : e.state = EState.disputed := not_ne_iff.mp h2
    simp only [Except.ok.injEq, Prod.mk.injEq] at h
    obtain ⟨he2, -⟩ := h
    subst he2
    rw [hst]
    split <;> rfl

/-- In a terminal state every mutating simple-variant call fails. -/
lemma sstep_terminal {now sender : Nat} {op : SOp} {e : SEscrow}
    (h : isTerminal e.state = true) : (sstep now sender op e).isOk = false := by
  cases hs : e.state <;> rw [hs] at h <;> simp [isTerminal] at h <;> cases op <;>
    simp [sstep, deposit, markDelivered, confirmDelivery, refund, claimByTimeout,
      claimRefundByTimeout, dispute, resolveDispute, hs, Except.isOk, Except.toBool,
      apply_ite] <;> (try (split_ifs <;> rfl))

end EscrowModel.Simple

namespace EscrowModel

/-- Topological rank of the state machine. -/
def rank : EState → Nat
  | .awaitingPayment => 0
  | .funded => 1
  | .delivered => 2
  | .disputed => 3
  | .complete => 4
  | .refunded => 4

/-- State of the escrow produced by a successful call. -/
def okState (r : Except Err (Escrow × List Ev)) : Option EState :=
  match r with
  | .ok (e, _) => some e.state
  | .error _ => none

/-- Concrete environment for witnesses: a call at time 11 with no gas use. -/
def witEnv : Env := { now := 11, txGasprice := 0, gasUsed := 0, recover := fun _ _ _ _ => 0 }

/-- Concrete funded escrow instance used by witnesses. -/
def witE0 : Escrow :=
  { buyer := 1, seller := 2, arbiter := 3, escrowAmount := 50, deliveryDeadline := 10,
    reviewPeriod := 4, maxGasPrice := 1, maxGasPerAction := 1, arbiterFee := 7,
    state := .funded, deliveredAt := 0, gasPoolBalance := 20, arbiterFeePaid := false,
    nonces := fun _ _ => 0, balance := 77 }

/-- The terminal instance reached from witE0 by a refund timeout claim. -/
def witE1 : Escrow :=
  { witE0 with
    state := .refunded, gasPoolBalance := 0, arbiterFeePaid := true, balance := 0 }

/-- The trace of that refund timeout claim. -/
def witEvs1 : List Ev :=
  [Ev.setState .refunded, Ev.setGasPool 0, Ev.feePaidSet, Ev.transfer 3 7,
   Ev.transfer 1 70]

/-- C1: for every valid lifecycle of one gas-abstracted escrow instance
(construction followed by any sequence of successful operations reaching a
terminal state), the sum of all value paid out equals the sum of all value
deposited, the terminal balance is zero, the gas pool is zeroed and the
arbiter fee is settled; moreover every single terminal transition pays out
the whole balance held before it, zeroes the pool and settles the fee. -/
theorem C1_value_conservation
    (now b s a A dl rp mgp mga fee value : Nat)
    (e0 e1 : Escrow) (evs0 evs : List Ev)
    (h0 : mkEscrow now b s a A dl rp mgp mga fee value = .ok (e0, evs0))
    (hs : Steps e0 evs e1)
    (hterm : isTerminal e1.state = true) :
    totalOut evs = totalIn evs0 + totalIn evs ∧
    e1.balance = 0 ∧ e1.gasPoolBalance = 0 ∧
    (e1.arbiterFeePaid = true ∨ e1.arbiterFee = 0) ∧
    (∀ (env : Env) (sender : Nat) (op : Op) (e e2 : Escrow) (evs2 : List Ev),
      Inv e → step env sender op e = .ok (e2, evs2) → isTerminal e2.state = true →
      e2.balance = 0 ∧ e2.gasPoolBalance = 0 ∧
      (e2.arbiterFeePaid = true ∨ e2.arbiterFee = 0) ∧
      totalOut evs2 = e.balance + totalIn evs2) := by
  obtain ⟨-, -, -, -, -, -, -, -, -, -, -, -, hbal0, -, -, -, -, -, -, -, -, -, -,
    hInv0, hin0⟩ := mkEscrow_sound h0
  obtain ⟨hInv1, hcons⟩ := steps_inv hs hInv0
  obtain ⟨hb1, hp1, hf1⟩ := hInv1.2.2 hterm
  refine ⟨by omega, hb1, hp1, hf1, ?_⟩
  intro env sender op e e2 evs2 hInvE hstep hterm2
  obtain ⟨hInv2, hcons2⟩ := (step_sound hstep).2.2.2.2.2 hInvE
  obtain ⟨hb2, hp2, hf2⟩ := hInv2.2.2 hterm2
  exact ⟨hb2, hp2, hf2, by omega⟩

/-- Witness for C1 on a concrete lifecycle: construction with principal
50, fee 7, gas pool 20, then a refund timeout claim at time 11. -/
theorem C1_value_conservation_witness :
    totalOut (witEvs1 ++ []) = totalIn [Ev.depositEv 1 77 20] + totalIn (witEvs1 ++ []) ∧
    witE1.balance = 0 ∧ witE1.gasPoolBalance = 0 ∧
    (witE1.arbiterFeePaid = true ∨ witE1.arbiterFee = 0) ∧
    (∀ (env : Env) (sender : Nat) (op : Op) (e e2 : Escrow) (evs2 : List Ev),
      Inv e → step env sender op e = .ok (e2, evs2) → isTerminal e2.state = true →
      e2.balance = 0 ∧ e2.gasPoolBalance = 0 ∧
      (e2.arbiterFeePaid = true ∨ e2.arbiterFee = 0) ∧
      totalOut evs2 = e.balance + totalIn evs2) :=
  C1_value_conservation 0 1 2 3 50 10 4 1 1 7 77 witE0 witE1
    [Ev.depositEv 1 77 20] (witEvs1 ++ []) (by rfl)
    (Steps.more witEnv 1 Op.claimRefundByTimeoutOp (by rfl) (Steps.refl witE1))
    (by rfl)

end EscrowModel

namespace EscrowModel

/-- C2 counterexample: a successful refund timeout claim moves the state
directly from FUNDED to REFUNDED, an edge absent from the chain of edges
enumerated by the claim (whose only successor of FUNDED is DELIVERED). -/
theorem C2_counterexample :
    (step witEnv 1 Op.claimRefundByTimeoutOp witE0).isOk = true ∧
    okState (step witEnv 1 Op.claimRefundByTimeoutOp witE0) = some EState.refunded ∧
    witE0.state = EState.funded ∧
    claimedEdge EState.funded EState.refunded = false := by
  refine ⟨by rfl, by rfl, rfl, rfl⟩

/-- C2 (amended): in both variants every successful operation moves the
state along a forward edge of the code (the claimed chain plus
FUNDED to REFUNDED taken by the refund paths), the rank strictly
increases on every edge so no sequence of operations can move the state
backward, and in the terminal states COMPLETE and REFUNDED every mutating
operation fails without effect. -/
theorem C2_forward_monotone :
    (∀ (env : Env) (sender : Nat) (op : Op) (e e2 : Escrow) (evs : List Ev),
      step env sender op e = .ok (e2, evs) → edgeOK e.state e2.state = true) ∧
    (∀ (env : Env) (sender : Nat) (op : Op) (e : Escrow),
      isTerminal e.state = true → (step env sender op e).isOk = false) ∧
    (∀ (now sender : Nat) (op : Simple.SOp) (e e2 : Simple.SEscrow) (evs : List Ev),
      Simple.sstep now sender op e = .ok (e2, evs) → edgeOK e.state e2.state = true) ∧
    (∀ (now sender : Nat) (op : Simple.SOp) (e : Simple.SEscrow),
      isTerminal e.state = true → (Simple.sstep now sender op e).isOk = false) ∧
    (∀ s s2 : EState, edgeOK s s2 = true → rank s < rank s2) := by
  refine ⟨?_, ?_, ?_, ?_, ?_⟩
  · intro env sender op e e2 evs h
    exact (step_sound h).1
  · intro env sender op e h
    exact step_terminal h
  · intro now sender op e e2 evs h
    exact Simple.sstep_edge h
  · intro now sender op e h
    exact Simple.sstep_terminal h
  · intro s s2 hedge
    cases s <;> cases s2 <;> simp [edgeOK] at hedge <;> simp [rank]

/-- Witness for C2 on concrete calls: the refund timeout claim takes the
edge FUNDED to REFUNDED, a further call on the terminal instance fails,
and the rank increases along that edge. -/
theorem C2_forward_monotone_witness :
    edgeOK witE0.state witE1.state = true ∧
    (step witEnv 1 Op.claimRefundByTimeoutOp witE1).isOk = false ∧
    rank EState.funded < rank EState.refunded :=
  ⟨C2_forward_monotone.1 witEnv 1 Op.claimRefundByTimeoutOp witE0 witE1 witEvs1 (by rfl),
   C2_forward_monotone.2.1 witEnv 1 Op.claimRefundByTimeoutOp witE1 (by rfl),
   C2_forward_monotone.2.2.2.2 EState.funded EState.refunded (by rfl)⟩

end EscrowModel

namespace EscrowModel

/-- C3: the arbiterFeePaid latch is one-shot and the fee helper is
idempotent: calling it with the latch set or a zero fee is a no-op with no
state change and no transfer; when it pays, it transfers exactly the
arbiter fee to the arbiter and sets the latch; and along any trace of
successful operations the latch accounts exactly for the fee events, so
it flips from false to true at most once in the life of an instance. -/
theorem C3_fee_latch :
    (∀ e : Escrow, e.arbiterFeePaid = true → payArbiterFee e = (e, [])) ∧
    (∀ e : Escrow, e.arbiterFee = 0 → payArbiterFee e = (e, [])) ∧
    (∀ e : Escrow, e.arbiterFeePaid = false → e.arbiterFee ≠ 0 →
      payArbiterFee e =
        ({ e with arbiterFeePaid := true, balance := e.balance - e.arbiterFee },
         [Ev.feePaidSet, Ev.transfer e.arbiter e.arbiterFee])) ∧
    (∀ (e e2 : Escrow) (evs : List Ev), Steps e evs e2 →
      boolNat e.arbiterFeePaid + countFee evs = boolNat e2.arbiterFeePaid) ∧
    (∀ (e e2 : Escrow) (evs : List Ev), Steps e evs e2 → countFee evs ≤ 1) := by
  refine ⟨?_, ?_, ?_, ?_, ?_⟩
  · intro e h
    simp [payArbiterFee, h]
  · intro e h
    simp [payArbiterFee, h]
  · intro e h1 h2
    simp [payArbiterFee, h1, h2]
  · intro e e2 evs h
    exact steps_fee h
  · intro e e2 evs h
    have := steps_fee h
    cases hf : e.arbiterFeePaid <;> cases hf2 : e2.arbiterFeePaid <;>
      rw [hf, hf2] at this <;> simp [boolNat] at this <;> omega

/-- Witness for C3 at concrete instances: a no-op on an instance with the
latch set, an exact payment on an unpaid instance with fee 7, and the
count bound along the concrete refund lifecycle. -/
theorem C3_fee_latch_witness :
    payArbiterFee witE1 = (witE1, []) ∧
    payArbiterFee witE0 =
      ({ witE0 with arbiterFeePaid := true, balance := 70 },
       [Ev.feePaidSet, Ev.transfer 3 7]) ∧
    countFee (witEvs1 ++ []) ≤ 1 :=
  ⟨C3_fee_latch.1 witE1 rfl,
   C3_fee_latch.2.2.1 witE0 rfl (by decide),
   C3_fee_latch.2.2.2.2 witE0 witE1 (witEvs1 ++ [])
     (Steps.more witEnv 1 Op.claimRefundByTimeoutOp (by rfl) (Steps.refl witE1))⟩

/-- Error of a call result, when it failed. -/
def errOf (r : Except Err (Escrow × List Ev)) : Option Err :=
  match r with
  | .error err => some err
  | .ok _ => none

/-- Environment whose abstract signature recovery returns the raw
signature value, so a signature is valid exactly when it equals the
expected signer address. -/
def witSigEnv : Env :=
  { now := 5, txGasprice := 0, gasUsed := 0, recover := fun _ _ _ sig => sig }

/-- Result of the successful concrete metaMarkDelivered run on witE0. -/
def witMark1 : Escrow :=
  { bumpNonce 2 ActionType.markDeliveredKind witE0 with
    state := .delivered, deliveredAt := 5 }

/-- C4 counterexample: a valid metaMarkDelivered succeeds once, and
resubmitting the identical (signature, nonce, deadline) triple fails with
the state error InvalidState(DELIVERED, FUNDED) and not with the
nonce-mismatch error InvalidNonce, because the accepted action already
moved the instance out of FUNDED and the state modifier runs before the
nonce check. -/
theorem C4_counterexample :
    (metaMarkDelivered witSigEnv 3 2 0 9 witE0).isOk = true ∧
    errOf (Except.bind (metaMarkDelivered witSigEnv 3 2 0 9 witE0)
      (fun p => metaMarkDelivered witSigEnv 3 2 0 9 p.1))
      = some (Err.invalidState EState.delivered EState.funded) ∧
    Err.invalidState EState.delivered EState.funded ≠ Err.invalidNonce := by
  refine ⟨by rfl, by rfl, by decide⟩

end EscrowModel

namespace EscrowModel

/-- metaMarkDelivered fails whenever the state is not FUNDED. -/
lemma metaMarkDelivered_wrongState {env : Env} {sender sig n d : Nat} {e : Escrow}
    (h : e.state ≠ EState.funded) :
    (metaMarkDelivered env sender sig n d e).isOk = false := by
  unfold metaMarkDelivered
  split_ifs <;> simp_all [Except.isOk, Except.toBool]

/-- metaConfirmDelivery fails whenever the state is not DELIVERED. -/
lemma metaConfirmDelivery_wrongState {env : Env} {sender sig n d : Nat} {e : Escrow}
    (h : e.state ≠ EState.delivered) :
    (metaConfirmDelivery env sender sig n d e).isOk = false := by
  unfold metaConfirmDelivery
  split_ifs <;> simp_all [Except.isOk, Except.toBool]

/-- metaRefund fails whenever the state is not FUNDED. -/
lemma metaRefund_wrongState {env : Env} {sender sig n d : Nat} {e : Escrow}
    (h : e.state ≠ EState.funded) :
    (metaRefund env sender sig n d e).isOk = false := by
  unfold metaRefund
  split_ifs <;> simp_all [Except.isOk, Except.toBool]

/-- metaDispute fails whenever the state is not DELIVERED. -/
lemma metaDispute_wrongState {env : Env} {sender signer sig n d : Nat} {e : Escrow}
    (h : e.state ≠ EState.delivered) :
    (metaDispute env sender signer sig n d e).isOk = false := by
  unfold metaDispute
  split_ifs <;> simp_all [Except.isOk, Except.toBool]

/-- C4 (amended): per (signer, action kind) nonces are strictly
increasing and replay-proof: under the guards that run before the
signature verifier, a supplied nonce different from the stored one makes
each meta-transaction fail with InvalidNonce and no state change; every
accepted signature increments exactly the (expected signer, action kind)
entry by one and no other; and after an accepted meta-transaction any
resubmission of that same entry point on the resulting instance fails,
because the accepted action left the state the entry point requires (the
state guard rejects it before the nonce is even consulted; were the state
guard satisfied, the incremented nonce would make it fail with
InvalidNonce). -/
theorem C4_nonce_replay :
    (∀ (env : Env) (sender sig n d : Nat) (e : Escrow), sender = e.arbiter →
      e.state = .funded → env.now ≤ d → env.now ≤ e.deliveryDeadline →
      e.nonces e.seller .markDeliveredKind ≠ n →
      metaMarkDelivered env sender sig n d e = .error .invalidNonce) ∧
    (∀ (env : Env) (sender sig n d : Nat) (e : Escrow), sender = e.arbiter →
      e.state = .delivered → env.now ≤ d → env.now ≤ e.deliveredAt + e.reviewPeriod →
      e.nonces e.buyer .confirmDeliveryKind ≠ n →
      metaConfirmDelivery env sender sig n d e = .error .invalidNonce) ∧
    (∀ (env : Env) (sender sig n d : Nat) (e : Escrow), sender = e.arbiter →
      e.state = .funded → env.now ≤ d →
      e.nonces e.seller .requestRefundKind ≠ n →
      metaRefund env sender sig n d e = .error .invalidNonce) ∧
    (∀ (env : Env) (sender signer sig n d : Nat) (e : Escrow), sender = e.arbiter →
      e.state = .delivered → (signer = e.buyer ∨ signer = e.seller) → env.now ≤ d →
      env.now ≤ e.deliveredAt + e.reviewPeriod → e.arbiter ≠ 0 →
      e.nonces signer .raiseDisputeKind ≠ n →
      metaDispute env sender signer sig n d e = .error .invalidNonce) ∧
    (∀ (env : Env) (sender sig n d : Nat) (e e2 : Escrow) (evs : List Ev),
      metaMarkDelivered env sender sig n d e = .ok (e2, evs) →
      e2.nonces e.seller .markDeliveredKind
        = e.nonces e.seller .markDeliveredKind + 1 ∧
      (∀ s k, ¬(s = e.seller ∧ k = ActionType.markDeliveredKind) →
        e2.nonces s k = e.nonces s k) ∧
      (∀ (env2 : Env) (sender2 sig2 n2 d2 : Nat),
        (metaMarkDelivered env2 sender2 sig2 n2 d2 e2).isOk = false)) ∧
    (∀ (env : Env) (sender sig n d : Nat) (e e2 : Escrow) (evs : List Ev),
      metaConfirmDelivery env sender sig n d e = .ok (e2, evs) →
      e2.nonces e.buyer .confirmDeliveryKind
        = e.nonces e.buyer .confirmDeliveryKind + 1 ∧
      (∀ (env2 : Env) (sender2 sig2 n2 d2 : Nat),
        (metaConfirmDelivery env2 sender2 sig2 n2 d2 e2).isOk = false)) ∧
    (∀ (env : Env) (sender sig n d : Nat) (e e2 : Escrow) (evs : List Ev),
      metaRefund env sender sig n d e = .ok (e2, evs) →
      e2.nonces e.seller .requestRefundKind
        = e.nonces e.seller .requestRefundKind + 1 ∧
      (∀ (env2 : Env) (sender2 sig2 n2 d2 : Nat),
        (metaRefund env2 sender2 sig2 n2 d2 e2).isOk = false)) ∧
    (∀ (env : Env) (sender signer sig n d : Nat) (e e2 : Escrow) (evs : List Ev),
      metaDispute env sender signer sig n d e = .ok (e2, evs) →
      e2.nonces signer .raiseDisputeKind = e.nonces signer .raiseDisputeKind + 1 ∧
      (∀ (env2 : Env) (sender2 signer2 sig2 n2 d2 : Nat),
        (metaDispute env2 sender2 signer2 sig2 n2 d2 e2).isOk = false)) := by
  refine ⟨?_, ?_, ?_, ?_, ?_, ?_, ?_, ?_⟩
  · intro env sender sig n d e h1 h2 h3 h4 h5
    have c3 : ¬(d < env.now) := by omega
    have c4 : ¬(e.deliveryDeadline < env.now) := by omega
    simp [metaMarkDelivered, h1, h2, c3, c4, h5]
  · intro env sender sig n d e h1 h2 h3 h4 h5
    have c3 : ¬(d < env.now) := by omega
    have c4 : ¬(e.deliveredAt + e.reviewPeriod < env.now) := by omega
    simp [metaConfirmDelivery, h1, h2, c3, c4, h5]
  · intro env sender sig n d e h1 h2 h3 h4
    have c3 : ¬(d < env.now) := by omega
    simp [metaRefund, h1, h2, c3, h4]
  · intro env sender signer sig n d e h1 h2 hsig h3 h4 h5 h6
    have c3 : ¬(d < env.now) := by omega
    have c4 : ¬(e.deliveredAt + e.reviewPeriod < env.now) := by omega
    have csig : ¬(signer ≠ e.buyer ∧ signer ≠ e.seller) := by
      rcases hsig with h | h <;> simp [h]
    simp [metaDispute, h1, h2, csig, c3, c4, h5, h6]
  · intro env sender sig n d e e2 evs h
    obtain ⟨-, -, hst2, -, -, -, -, -, hinc, hother, -⟩ := metaMarkDelivered_sound h
    exact ⟨hinc, hother, fun env2 sender2 sig2 n2 d2 =>
      metaMarkDelivered_wrongState (by rw [hst2]; decide)⟩
  · intro env sender sig n d e e2 evs h
    obtain ⟨-, -, hst2, -, -, -, -, hinc, -, -⟩ := metaConfirmDelivery_sound h
    exact ⟨hinc, fun env2 sender2 sig2 n2 d2 =>
      metaConfirmDelivery_wrongState (by rw [hst2]; decide)⟩
  · intro env sender sig n d e e2 evs h
    obtain ⟨-, -, hst2, -, -, -, hinc, -, -⟩ := metaRefund_sound h
    exact ⟨hinc, fun env2 sender2 sig2 n2 d2 =>
      metaRefund_wrongState (by rw [hst2]; decide)⟩
  · intro env sender signer sig n d e e2 evs h
    obtain ⟨-, -, hst2, -, -, -, -, -, -, hinc, -, -⟩ := metaDispute_sound h
    exact ⟨hinc, fun env2 sender2 signer2 sig2 n2 d2 =>
      metaDispute_wrongState (by rw [hst2]; decide)⟩

/-- Witness for C4 at concrete inputs: a stale nonce is rejected with
InvalidNonce, and the accepted run bumps the seller's MARK_DELIVERED
nonce and blocks resubmission. -/
theorem C4_nonce_replay_witness :
    metaMarkDelivered witSigEnv 3 2 5 9 witE0 = .error Err.invalidNonce ∧
    (witMark1.nonces 2 ActionType.markDeliveredKind
        = witE0.nonces 2 ActionType.markDeliveredKind + 1 ∧
      (∀ s k, ¬(s = 2 ∧ k = ActionType.markDeliveredKind) →
        witMark1.nonces s k = witE0.nonces s k) ∧
      (∀ (env2 : Env) (sender2 sig2 n2 d2 : Nat),
        (metaMarkDelivered env2 sender2 sig2 n2 d2 witMark1).isOk = false)) :=
  ⟨C4_nonce_replay.1 witSigEnv 3 2 5 9 witE0 rfl rfl (by decide) (by decide) (by decide),
   C4_nonce_replay.2.2.2.2.1 witSigEnv 3 2 0 9 witE0 witMark1
     [Ev.incNonce 2 ActionType.markDeliveredKind, Ev.setState EState.delivered,
      Ev.setDeliveredAt 5] (by rfl)⟩

end EscrowModel

namespace EscrowModel

/-- Concrete funded simple-variant escrow for witnesses. -/
def witSF : Simple.SEscrow :=
  { buyer := 1, seller := 2, arbiter := 3, amount := 50, deliveryDeadline := 10,
    reviewPeriod := 4, state := .funded, deliveredAt := 0, balance := 50 }

/-- Concrete delivered simple-variant escrow for witnesses. -/
def witSD : Simple.SEscrow :=
  { witSF with state := .delivered, deliveredAt := 5 }

/-- C5: at every deadline boundary D the direct action requiring
now ≤ D succeeds at now = D and fails with the already-passed timing
error at now = D + 1, while the timeout counterpart requiring now > D
fails with the not-yet-passed timing error at now = D and succeeds at
now = D + 1; at no instant are both the direct action (by its principal)
and its timeout counterpart valid, and at every instant in the live
window at least one of them is; the advanced-variant timeout claims cut
the same boundary. -/
theorem C5_deadline_boundaries (e : Simple.SEscrow) :
    (e.state = .funded →
      (Simple.markDelivered e.deliveryDeadline e.seller e).isOk = true ∧
      Simple.markDelivered (e.deliveryDeadline + 1) e.seller e
        = .error .deliveryDeadlinePassed ∧
      Simple.claimRefundByTimeout e.deliveryDeadline e.buyer e
        = .error .deliveryDeadlineNotPassed ∧
      (Simple.claimRefundByTimeout (e.deliveryDeadline + 1) e.buyer e).isOk = true ∧
      (∀ now s1 s2, ¬((Simple.markDelivered now s1 e).isOk = true ∧
        (Simple.claimRefundByTimeout now s2 e).isOk = true)) ∧
      (∀ now, (Simple.markDelivered now e.seller e).isOk = true ∨
        (Simple.claimRefundByTimeout now e.buyer e).isOk = true)) ∧
    (e.state = .delivered →
      (Simple.confirmDelivery (e.deliveredAt + e.reviewPeriod) e.buyer e).isOk = true ∧
      Simple.confirmDelivery (e.deliveredAt + e.reviewPeriod + 1) e.buyer e
        = .error .reviewPeriodEnded ∧
      (e.arbiter ≠ 0 →
        (Simple.dispute (e.deliveredAt + e.reviewPeriod) e.buyer e).isOk = true ∧
        Simple.dispute (e.deliveredAt + e.reviewPeriod + 1) e.buyer e
          = .error .reviewPeriodEnded) ∧
      (∀ sender, Simple.claimByTimeout (e.deliveredAt + e.reviewPeriod) sender e
        = .error .reviewPeriodNotEnded) ∧
      (∀ sender,
        (Simple.claimByTimeout (e.deliveredAt + e.reviewPeriod + 1) sender e).isOk
          = true) ∧
      (∀ now s2, ¬((Simple.confirmDelivery now e.buyer e).isOk = true ∧
        (Simple.claimByTimeout now s2 e).isOk = true)) ∧
      (∀ now, (Simple.confirmDelivery now e.buyer e).isOk = true ∨
        (Simple.claimByTimeout now e.buyer e).isOk = true)) ∧
    (∀ (envA : Env) (eA : Escrow) (sender : Nat), eA.state = .delivered →
      (envA.now = eA.deliveredAt + eA.reviewPeriod →
        claimByTimeout envA sender eA = .error .reviewPeriodNotEnded) ∧
      (envA.now = eA.deliveredAt + eA.reviewPeriod + 1 →
        (claimByTimeout envA sender eA).isOk = true)) ∧
    (∀ (envA : Env) (eA : Escrow), eA.state = .funded →
      (envA.now = eA.deliveryDeadline →
        claimRefundByTimeout envA eA.buyer eA = .error .deliveryDeadlineNotPassed) ∧
      (envA.now = eA.deliveryDeadline + 1 →
        (claimRefundByTimeout envA eA.buyer eA).isOk = true)) := by
  refine ⟨?_, ?_, ?_, ?_⟩
  · intro hst
    refine ⟨?_, ?_, ?_, ?_, ?_, ?_⟩
    · simp [Simple.markDelivered, hst, Except.isOk, Except.toBool]
    · simp [Simple.markDelivered, hst]
    · simp [Simple.claimRefundByTimeout, hst]
    · simp [Simple.claimRefundByTimeout, hst, Except.isOk, Except.toBool]
    · intro now s1 s2 hc
      obtain ⟨h1, h2⟩ := hc
      by_cases hn : now ≤ e.deliveryDeadline
      · have hfail : (Simple.claimRefundByTimeout now s2 e).isOk = false := by
          unfold Simple.claimRefundByTimeout
          split_ifs <;> simp_all [Except.isOk, Except.toBool]
        rw [hfail] at h2
        cases h2
      · have hfail : (Simple.markDelivered now s1 e).isOk = false := by
          unfold Simple.markDelivered
          split_ifs <;> simp_all [Except.isOk, Except.toBool]
        rw [hfail] at h1
        cases h1
    · intro now
      by_cases hn : now ≤ e.deliveryDeadline
      · left
        have : ¬(e.deliveryDeadline < now) := by omega
        simp [Simple.markDelivered, hst, this, Except.isOk, Except.toBool]
      · right
        simp [Simple.claimRefundByTimeout, hst, hn, Except.isOk, Except.toBool]
  · intro hst
    refine ⟨?_, ?_, ?_, ?_, ?_, ?_, ?_⟩
    · simp [Simple.confirmDelivery, hst, Except.isOk, Except.toBool]
    · simp [Simple.confirmDelivery, hst]
    · intro harb
      constructor
      · simp [Simple.dispute, hst, harb, Except.isOk, Except.toBool]
      · simp [Simple.dispute, hst, harb]
    · intro sender
      simp [Simple.claimByTimeout, hst]
    · intro sender
      have : ¬(e.deliveredAt + e.reviewPeriod + 1 ≤ e.deliveredAt + e.reviewPeriod) := by
        omega
      simp [Simple.claimByTimeout, hst, this, Except.isOk, Except.toBool]
    · intro now s2 hc
      obtain ⟨h1, h2⟩ := hc
      by_cases hn : now ≤ e.deliveredAt + e.reviewPeriod
      · have hfail : (Simple.claimByTimeout now s2 e).isOk = false := by
          unfold Simple.claimByTimeout
          split_ifs <;> simp_all [Except.isOk, Except.toBool]
        rw [hfail] at h2
        cases h2
      · have hfail : (Simple.confirmDelivery now e.buyer e).isOk = false := by
          unfold Simple.confirmDelivery
          split_ifs <;> simp_all [Except.isOk, Except.toBool]
        rw [hfail] at h1
        cases h1
    · intro now
      by_cases hn : now ≤ e.deliveredAt + e.reviewPeriod
      · left
        have : ¬(e.deliveredAt + e.reviewPeriod < now) := by omega
        simp [Simple.confirmDelivery, hst, this, Except.isOk, Except.toBool]
      · right
        simp [Simple.claimByTimeout, hst, hn, Except.isOk, Except.toBool]
  · intro envA eA sender hst
    constructor
    · intro hnow
      simp [claimByTimeout, hst, hnow]
    · intro hnow
      have : ¬(envA.now ≤ eA.deliveredAt + eA.reviewPeriod) := by omega
      simp [claimByTimeout, hst, this, Except.isOk, Except.toBool]
  · intro envA eA hst
    constructor
    · intro hnow
      simp [claimRefundByTimeout, hst, hnow]
    · intro hnow
      have : ¬(envA.now ≤ eA.deliveryDeadline) := by omega
      simp [claimRefundByTimeout, hst, this, Except.isOk, Except.toBool]

/-- Witness for C5 at a concrete funded and a concrete delivered
instance with deadline 10 and review window ending at 9. -/
theorem C5_deadline_boundaries_witness :
    (Simple.markDelivered 10 2 witSF).isOk = true ∧
    Simple.markDelivered 11 2 witSF = .error .deliveryDeadlinePassed ∧
    Simple.claimRefundByTimeout 10 1 witSF = .error .deliveryDeadlineNotPassed ∧
    (Simple.claimRefundByTimeout 11 1 witSF).isOk = true ∧
    (Simple.confirmDelivery 9 1 witSD).isOk = true ∧
    (∀ sender, Simple.claimByTimeout 9 sender witSD = .error .reviewPeriodNotEnded) :=
  ⟨((C5_deadline_boundaries witSF).1 rfl).1,
   ((C5_deadline_boundaries witSF).1 rfl).2.1,
   ((C5_deadline_boundaries witSF).1 rfl).2.2.1,
   ((C5_deadline_boundaries witSF).1 rfl).2.2.2.1,
   ((C5_deadline_boundaries witSD).2.1 rfl).1,
   ((C5_deadline_boundaries witSD).2.1 rfl).2.2.2.1⟩

end EscrowModel

namespace EscrowModel

/-- Trace of a call result, when it succeeded. -/
def evsOf (r : Except Err (Escrow × List Ev)) : Option (List Ev) :=
  match r with
  | .ok (_, evs) => some evs
  | .error _ => none

/-- Environment with a nonzero gas price, so the relayer reimbursement is
positive. -/
def witGasEnv : Env :=
  { now := 5, txGasprice := 2, gasUsed := 100, recover := fun _ _ _ sig => sig }

/-- Concrete delivered gas-abstracted escrow for witnesses. -/
def witED : Escrow := { witE0 with state := .delivered, deliveredAt := 5 }

/-- C6 counterexample: in a successful metaConfirmDelivery with a
positive gas reimbursement and an unpaid nonzero arbiter fee, the
arbiterFeePaid latch write and the gas-pool zeroing occur after the gas
reimbursement transfer to the relayer, so not all internal state
mutations are committed before any external value transfer. -/
theorem C6_counterexample :
    evsOf (metaConfirmDelivery witGasEnv 3 1 0 9 witED)
      = some [Ev.incNonce 1 ActionType.confirmDeliveryKind, Ev.setState EState.complete,
          Ev.setGasPool 19, Ev.transfer 3 1, Ev.feePaidSet, Ev.transfer 3 7,
          Ev.setGasPool 0, Ev.transfer 1 19, Ev.transfer 2 50] ∧
    writesFirst isAnyWrite false
      [Ev.incNonce 1 ActionType.confirmDeliveryKind, Ev.setState EState.complete,
       Ev.setGasPool 19, Ev.transfer 3 1, Ev.feePaidSet, Ev.transfer 3 7,
       Ev.setGasPool 0, Ev.transfer 1 19, Ev.transfer 2 50] = false :=
  ⟨rfl, rfl⟩

/-- Every successful simple-variant call commits all internal mutations
before any transfer. -/
lemma sstep_writesFirst {now sender : Nat} {op : Simple.SOp} {e e2 : Simple.SEscrow}
    {evs : List Ev} (h : Simple.sstep now sender op e = .ok (e2, evs)) :
    writesFirst isAnyWrite false evs = true := by
  cases op <;> simp only [Simple.sstep] at h <;>
    first
    | (unfold Simple.deposit at h
       split_ifs at h <;> simp only [Except.ok.injEq, Prod.mk.injEq] at h <;>
         obtain ⟨-, hevs⟩ := h <;> subst hevs <;> rfl)
    | (unfold Simple.markDelivered at h
       split_ifs at h <;> simp only [Except.ok.injEq, Prod.mk.injEq] at h <;>
         obtain ⟨-, hevs⟩ := h <;> subst hevs <;> rfl)
    | (unfold Simple.confirmDelivery at h
       split_ifs at h <;> simp only [Except.ok.injEq, Prod.mk.injEq] at h <;>
         obtain ⟨-, hevs⟩ := h <;> subst hevs <;> rfl)
    | (unfold Simple.refund at h
       split_ifs at h <;> simp only [Except.ok.injEq, Prod.mk.injEq] at h <;>
         obtain ⟨-, hevs⟩ := h <;> subst hevs <;> rfl)
    | (unfold Simple.claimByTimeout at h
       split_ifs at h <;> simp only [Except.ok.injEq, Prod.mk.injEq] at h <;>
         obtain ⟨-, hevs⟩ := h <;> subst hevs <;> rfl)
    | (unfold Simple.claimRefundByTimeout at h
       split_ifs at h <;> simp only [Except.ok.injEq, Prod.mk.injEq] at h <;>
         obtain ⟨-, hevs⟩ := h <;> subst hevs <;> rfl)
    | (unfold Simple.dispute at h
       split_ifs at h <;> simp only [Except.ok.injEq, Prod.mk.injEq] at h <;>
         obtain ⟨-, hevs⟩ := h <;> subst hevs <;> rfl)
    | (unfold Simple.resolveDispute at h
       split_ifs at h <;> simp only [Except.ok.injEq, Prod.mk.injEq] at h <;>
         obtain ⟨-, hevs⟩ := h <;> subst hevs <;> rfl)

/-- C6 (amended): in every successful operation of the gas-abstracted
variant the core internal mutations — the state-field transition, the
deliveredAt write and the nonce increment — are committed before any
external value transfer; each accepted meta-transaction increments its
nonce exactly once (and, being a core write, before any fund movement);
each internal helper commits its own bookkeeping write immediately before
the single transfer it funds (gas pool decrement before the relayer
reimbursement, latch before the fee transfer, pool zeroing before the pool
refund); and in the simple variant all internal mutations are committed
before any transfer.  The gas-pool and latch writes of the helpers are
not all committed before the first transfer of the surrounding operation,
only before their own. -/
theorem C6_writes_before_transfers :
    (∀ (env : Env) (sender : Nat) (op : Op) (e e2 : Escrow) (evs : List Ev),
      step env sender op e = .ok (e2, evs) → writesFirst isCoreWrite false evs = true) ∧
    (∀ (env : Env) (sender : Nat) (op : Op) (e e2 : Escrow) (evs : List Ev),
      step env sender op e = .ok (e2, evs) → isMetaOp op = true → countNonce evs = 1) ∧
    (∀ (env : Env) (r : Nat) (e : Escrow),
      (reimburseGas env r e).2 = [] ∨
      (reimburseGas env r e).2 =
        [Ev.setGasPool (e.gasPoolBalance - gasRefundAmount env e),
         Ev.transfer r (gasRefundAmount env e)]) ∧
    (∀ e : Escrow,
      (payArbiterFee e).2 = [] ∨
      (payArbiterFee e).2 = [Ev.feePaidSet, Ev.transfer e.arbiter e.arbiterFee]) ∧
    (∀ e : Escrow,
      (refundGasPool e).2 = [] ∨
      (refundGasPool e).2 = [Ev.setGasPool 0, Ev.transfer e.buyer e.gasPoolBalance]) ∧
    (∀ (now sender : Nat) (op : Simple.SOp) (e e2 : Simple.SEscrow) (evs : List Ev),
      Simple.sstep now sender op e = .ok (e2, evs) →
      writesFirst isAnyWrite false evs = true) := by
  refine ⟨?_, ?_, ?_, ?_, ?_, ?_⟩
  · intro env sender op e e2 evs h
    exact (step_sound h).2.2.1
  · intro env sender op e e2 evs h hm
    exact (step_sound h).2.2.2.1 hm
  · intro env r e
    rw [reimburseGas_eq]
    split
    · exact Or.inr rfl
    · exact Or.inl rfl
  · intro e
    rw [payArbiterFee_eq]
    split
    · exact Or.inl rfl
    · exact Or.inr rfl
  · intro e
    rw [refundGasPool_eq]
    split
    · exact Or.inr rfl
    · exact Or.inl rfl
  · intro now sender op e e2 evs h
    exact sstep_writesFirst h

/-- Witness for C6 on the concrete lifecycle step and helpers. -/
theorem C6_writes_before_transfers_witness :
    writesFirst isCoreWrite false witEvs1 = true ∧
    ((payArbiterFee witE0).2 = [] ∨
      (payArbiterFee witE0).2 = [Ev.feePaidSet, Ev.transfer witE0.arbiter witE0.arbiterFee]) :=
  ⟨C6_writes_before_transfers.1 witEnv 1 Op.claimRefundByTimeoutOp witE0 witE1 witEvs1
     (by rfl),
   C6_writes_before_transfers.2.2.2.1 witE0⟩

end EscrowModel

namespace EscrowModel

/-- With an empty pool the reimbursement helper does nothing. -/
lemma reimburseGas_zero_pool (env : Env) (r : Nat) (e : Escrow)
    (h : e.gasPoolBalance = 0) : reimburseGas env r e = (e, []) := by
  have hg : gasRefundAmount env e = 0 := by
    rw [gasRefundAmount_eq_min, h]
    simp
  rw [reimburseGas_eq, hg]
  simp

/-- C7: the relayer reimbursement equals min(gasUsed + 21000,
maxGasPerAction) * min(tx.gasprice, maxGasPrice), further capped at the
remaining gas pool; it is deducted from the pool exactly, so the pool
never underflows and never grows during any post-funding operation; and
with an empty pool the helper is a no-op and the relayed action still
succeeds, state transition included, with zero reimbursement. -/
theorem C7_gas_reimbursement :
    (∀ (env : Env) (r : Nat) (e : Escrow),
      gasRefundAmount env e
        = min (min (env.gasUsed + 21000) e.maxGasPerAction
            * min env.txGasprice e.maxGasPrice) e.gasPoolBalance ∧
      totalOut (reimburseGas env r e).2 = gasRefundAmount env e ∧
      (reimburseGas env r e).1.gasPoolBalance + gasRefundAmount env e
        = e.gasPoolBalance ∧
      gasRefundAmount env e ≤ e.gasPoolBalance) ∧
    (∀ (env : Env) (sender : Nat) (op : Op) (e e2 : Escrow) (evs : List Ev),
      e.state ≠ .awaitingPayment → step env sender op e = .ok (e2, evs) →
      e2.gasPoolBalance ≤ e.gasPoolBalance) ∧
    (∀ (env : Env) (r : Nat) (e : Escrow), e.gasPoolBalance = 0 →
      reimburseGas env r e = (e, [])) ∧
    (∀ (env : Env) (sender sig n d : Nat) (e : Escrow), e.gasPoolBalance = 0 →
      sender = e.arbiter → e.state = .funded → env.now ≤ d →
      env.now ≤ e.deliveryDeadline →
      e.nonces e.seller .markDeliveredKind = n →
      env.recover .markDeliveredKind n d sig = e.seller →
      ∃ (e2 : Escrow) (evs : List Ev),
        metaMarkDelivered env sender sig n d e = .ok (e2, evs) ∧
        e2.state = .delivered ∧ totalOut evs = 0) := by
  refine ⟨?_, ?_, ?_, ?_⟩
  · intro env r e
    have hle := gasRefundAmount_le_pool env e
    refine ⟨gasRefundAmount_eq_min env e, reimburseGas_out env r e, ?_, hle⟩
    rw [reimburseGas_pool]
    omega
  · intro env sender op e e2 evs hne h
    exact (step_sound h).2.2.2.2.1 hne
  · intro env r e h
    exact reimburseGas_zero_pool env r e h
  · intro env sender sig n d e h0 h1 h2 h3 h4 h5 h6
    simp only [metaMarkDelivered]
    rw [if_neg (show ¬(sender ≠ e.arbiter) by simp [h1]),
      if_neg (show ¬(e.state ≠ EState.funded) by simp [h2]),
      if_neg (show ¬(d < env.now) by omega),
      if_neg (show ¬(e.deliveryDeadline < env.now) by omega),
      if_neg (show ¬(e.nonces e.seller ActionType.markDeliveredKind ≠ n) by simp [h5]),
      if_neg (show ¬(env.recover ActionType.markDeliveredKind n d sig ≠ e.seller)
        by simp [h6])]
    refine ⟨_, _, rfl, by simp, ?_⟩
    simp [reimburseGas_out, gasRefundAmount_eq_min, evOut, h0]

/-- Witness for C7 on a zero-pool instance: the reimbursement helper is a
no-op and metaMarkDelivered still succeeds. -/
theorem C7_gas_reimbursement_witness :
    reimburseGas witSigEnv 3 { witE0 with gasPoolBalance := 0, balance := 57 }
      = ({ witE0 with gasPoolBalance := 0, balance := 57 }, []) ∧
    (∃ (e2 : Escrow) (evs : List Ev),
      metaMarkDelivered witSigEnv 3 2 0 9
        { witE0 with gasPoolBalance := 0, balance := 57 } = .ok (e2, evs) ∧
      e2.state = .delivered ∧ totalOut evs = 0) :=
  ⟨C7_gas_reimbursement.2.2.1 witSigEnv 3
     { witE0 with gasPoolBalance := 0, balance := 57 } rfl,
   C7_gas_reimbursement.2.2.2 witSigEnv 3 2 0 9
     { witE0 with gasPoolBalance := 0, balance := 57 } rfl rfl rfl (by decide)
     (by decide) rfl rfl⟩

end EscrowModel

namespace EscrowModel

/-- C9: the read-only accessors agree exactly with the guards of the
timeout claims in both variants: canClaimByTimeout is true exactly when
claimByTimeout succeeds (for any caller), canClaimRefundByTimeout is true
exactly when claimRefundByTimeout by the buyer succeeds, and a
claimRefundByTimeout by anyone else fails with the buyer-authorization
error regardless of the accessor. -/
theorem C9_accessors :
    (∀ (env : Env) (sender : Nat) (e : Escrow),
      canClaimByTimeout env.now e = true ↔ (claimByTimeout env sender e).isOk = true) ∧
    (∀ (env : Env) (e : Escrow),
      canClaimRefundByTimeout env.now e = true ↔
        (claimRefundByTimeout env e.buyer e).isOk = true) ∧
    (∀ (env : Env) (sender : Nat) (e : Escrow), sender ≠ e.buyer →
      claimRefundByTimeout env sender e = .error .onlyBuyer) ∧
    (∀ (now sender : Nat) (e : Simple.SEscrow),
      Simple.canClaimByTimeout now e = true ↔
        (Simple.claimByTimeout now sender e).isOk = true) ∧
    (∀ (now : Nat) (e : Simple.SEscrow),
      Simple.canClaimRefundByTimeout now e = true ↔
        (Simple.claimRefundByTimeout now e.buyer e).isOk = true) ∧
    (∀ (now sender : Nat) (e : Simple.SEscrow), sender ≠ e.buyer →
      Simple.claimRefundByTimeout now sender e = .error .onlyBuyer) := by
  refine ⟨?_, ?_, ?_, ?_, ?_, ?_⟩
  · intro env sender e
    constructor
    · intro hcan
      simp [canClaimByTimeout] at hcan
      obtain ⟨h1, h2⟩ := hcan
      have hn : ¬(env.now ≤ e.deliveredAt + e.reviewPeriod) := by omega
      simp [claimByTimeout, h1, hn, Except.isOk, Except.toBool]
    · intro hok
      cases hres : claimByTimeout env sender e with
      | error err =>
        rw [hres] at hok
        simp [Except.isOk, Except.toBool] at hok
      | ok p =>
        obtain ⟨e2, evs⟩ := p
        obtain ⟨hst, -, ht, -⟩ := claimByTimeout_sound hres
        simp [canClaimByTimeout, hst]
        omega
  · intro env e
    constructor
    · intro hcan
      simp [canClaimRefundByTimeout] at hcan
      obtain ⟨h1, h2⟩ := hcan
      have hn : ¬(env.now ≤ e.deliveryDeadline) := by omega
      simp [claimRefundByTimeout, h1, hn, Except.isOk, Except.toBool]
    · intro hok
      cases hres : claimRefundByTimeout env e.buyer e with
      | error err =>
        rw [hres] at hok
        simp [Except.isOk, Except.toBool] at hok
      | ok p =>
        obtain ⟨e2, evs⟩ := p
        obtain ⟨-, hst, -, ht, -⟩ := claimRefundByTimeout_sound hres
        simp [canClaimRefundByTimeout, hst]
        omega
  · intro env sender e h
    simp [claimRefundByTimeout, h]
  · intro now sender e
    constructor
    · intro hcan
      simp [Simple.canClaimByTimeout] at hcan
      obtain ⟨h1, h2⟩ := hcan
      have hn : ¬(now ≤ e.deliveredAt + e.reviewPeriod) := by omega
      simp [Simple.claimByTimeout, h1, hn, Except.isOk, Except.toBool]
    · intro hok
      by_cases h1 : e.state = EState.delivered
      · by_cases h2 : e.deliveredAt + e.reviewPeriod < now
        · simp [Simple.canClaimByTimeout, h1, h2]
        · have hfail : (Simple.claimByTimeout now sender e).isOk = false := by
            have hn : now ≤ e.deliveredAt + e.reviewPeriod := by omega
            simp [Simple.claimByTimeout, h1, hn, Except.isOk, Except.toBool]
          rw [hfail] at hok
          cases hok
      · have hfail : (Simple.claimByTimeout now sender e).isOk = false := by
          simp [Simple.claimByTimeout, h1, Except.isOk, Except.toBool]
        rw [hfail] at hok
        cases hok
  · intro now e
    constructor
    · intro hcan
      simp [Simple.canClaimRefundByTimeout] at hcan
      obtain ⟨h1, h2⟩ := hcan
      have hn : ¬(now ≤ e.deliveryDeadline) := by omega
      simp [Simple.claimRefundByTimeout, h1, hn, Except.isOk, Except.toBool]
    · intro hok
      by_cases h1 : e.state = EState.funded
      · by_cases h2 : e.deliveryDeadline < now
        · simp [Simple.canClaimRefundByTimeout, h1, h2]
        · have hfail : (Simple.claimRefundByTimeout now e.buyer e).isOk = false := by
            have hn : now ≤ e.deliveryDeadline := by omega
            simp [Simple.claimRefundByTimeout, h1, hn, Except.isOk, Except.toBool]
          rw [hfail] at hok
          cases hok
      · have hfail : (Simple.claimRefundByTimeout now e.buyer e).isOk = false := by
          simp [Simple.claimRefundByTimeout, h1, Except.isOk, Except.toBool]
        rw [hfail] at hok
        cases hok
  · intro now sender e h
    simp [Simple.claimRefundByTimeout, h]

/-- Witness for C9 at concrete instances: the delivered instance at time
11 is claimable exactly as the accessor says, and a non-buyer refund
claim fails with the buyer-authorization error. -/
theorem C9_accessors_witness :
    (claimByTimeout witEnv 9 witED).isOk = true ∧
    claimRefundByTimeout witEnv 5 witE0 = .error .onlyBuyer ∧
    Simple.claimRefundByTimeout 11 5 witSF = .error .onlyBuyer :=
  ⟨(C9_accessors.1 witEnv 9 witED).mp (by decide),
   C9_accessors.2.2.1 witEnv 5 witE0 (by decide),
   C9_accessors.2.2.2.2.2 11 5 witSF (by decide)⟩

end EscrowModel

namespace EscrowModel

/-- C8 counterexample: a createEscrow call whose sent value is exactly
escrowAmount + gasPool + arbiterFee (57 = 50 + 0 + 7) with a zero gas
pool passes the factory's exact-sum check but fails in the constructor,
which requires the sent value to strictly exceed escrowAmount +
arbiterFee, so no instance is created. -/
theorem C8_counterexample :
    createEscrow 0 1 57 2 3 50 0 7 1 1 10 4 = .error "Must include gas pool" ∧
    57 = 50 + 0 + 7 :=
  ⟨rfl, rfl⟩

/-- C8 (amended): a createEscrow call whose sent value differs from
escrowAmount + gasPool + arbiterFee fails with the incorrect-payment
error and no instance is created; a call with the exact sum whose
parameters satisfy the constructor validation (nonzero buyer, seller and
arbiter, positive escrow amount, future deadline, positive review period
and gas caps) and whose gas pool is positive constructs one funded
instance seeded with buyer = caller and the given parameters, and
returns it together with the discovery event carrying all constructor
parameters. -/
theorem C8_factory :
    (∀ (now sender value sellerA arbiterA A gp fee mgp mga dl rp : Nat),
      value ≠ A + gp + fee →
      createEscrow now sender value sellerA arbiterA A gp fee mgp mga dl rp
        = .error "Incorrect payment") ∧
    (∀ (now sender sellerA arbiterA A gp fee mgp mga dl rp : Nat),
      sender ≠ 0 → sellerA ≠ 0 → arbiterA ≠ 0 → A ≠ 0 → now < dl → rp ≠ 0 →
      mgp ≠ 0 → mga ≠ 0 → 0 < gp →
      ∃ e : Escrow,
        createEscrow now sender (A + gp + fee) sellerA arbiterA A gp fee mgp mga dl rp
          = .ok (e,
            { escrowBuyer := sender, escrowSeller := sellerA,
              escrowArbiter := arbiterA, recEscrowAmount := A, recGasPool := gp,
              recArbiterFee := fee, recMaxGasPrice := mgp, recMaxGasPerAction := mga,
              recDeliveryDeadline := dl, recReviewPeriod := rp }) ∧
        e.buyer = sender ∧ e.seller = sellerA ∧ e.arbiter = arbiterA ∧
        e.escrowAmount = A ∧ e.arbiterFee = fee ∧ e.gasPoolBalance = gp ∧
        e.deliveryDeadline = dl ∧ e.reviewPeriod = rp ∧ e.maxGasPrice = mgp ∧
        e.maxGasPerAction = mga ∧ e.state = .funded ∧ e.balance = A + gp + fee) := by
  constructor
  · intro now sender value sellerA arbiterA A gp fee mgp mga dl rp h
    simp [createEscrow, h]
  · intro now sender sellerA arbiterA A gp fee mgp mga dl rp
      hb hs ha hA hdl hrp hmgp hmga hgp
    have hmk : mkEscrow now sender sellerA arbiterA A dl rp mgp mga fee (A + gp + fee)
        = .ok
          ({ buyer := sender, seller := sellerA, arbiter := arbiterA,
             escrowAmount := A, deliveryDeadline := dl, reviewPeriod := rp,
             maxGasPrice := mgp, maxGasPerAction := mga, arbiterFee := fee,
             state := EState.funded, deliveredAt := 0,
             gasPoolBalance := A + gp + fee - A - fee, arbiterFeePaid := false,
             nonces := fun _ _ => 0, balance := A + gp + fee },
           [Ev.depositEv sender (A + gp + fee) (A + gp + fee - A - fee)]) := by
      unfold mkEscrow
      rw [if_neg hb, if_neg hs, if_neg ha, if_neg hA,
        if_neg (show ¬(dl ≤ now) by omega), if_neg hrp, if_neg hmgp, if_neg hmga,
        if_pos (show 0 < A + gp + fee by omega),
        if_neg (show ¬(A + gp + fee ≤ A + fee) by omega)]
    simp only [createEscrow]
    rw [if_neg (show ¬(A + gp + fee ≠ A + gp + fee) by simp), hmk]
    refine ⟨_, rfl, rfl, rfl, rfl, rfl, rfl, ?_, rfl, rfl, rfl, rfl, rfl, rfl⟩
    show A + gp + fee - A - fee = gp
    omega

/-- Witness for C8: exact-sum success with principal 50, pool 20, fee 7,
and rejection of a short payment. -/
theorem C8_factory_witness :
    createEscrow 0 1 76 2 3 50 20 7 1 1 10 4 = .error "Incorrect payment" ∧
    (∃ e : Escrow,
      createEscrow 0 1 (50 + 20 + 7) 2 3 50 20 7 1 1 10 4
        = .ok (e,
          { escrowBuyer := 1, escrowSeller := 2, escrowArbiter := 3,
            recEscrowAmount := 50, recGasPool := 20, recArbiterFee := 7,
            recMaxGasPrice := 1, recMaxGasPerAction := 1,
            recDeliveryDeadline := 10, recReviewPeriod := 4 }) ∧
      e.buyer = 1 ∧ e.seller = 2 ∧ e.arbiter = 3 ∧
      e.escrowAmount = 50 ∧ e.arbiterFee = 7 ∧ e.gasPoolBalance = 20 ∧
      e.deliveryDeadline = 10 ∧ e.reviewPeriod = 4 ∧ e.maxGasPrice = 1 ∧
      e.maxGasPerAction = 1 ∧ e.state = .funded ∧ e.balance = 50 + 20 + 7) :=
  ⟨C8_factory.1 0 1 76 2 3 50 20 7 1 1 10 4 (by decide),
   C8_factory.2 0 1 2 3 50 20 7 1 1 10 4 (by decide) (by decide) (by decide)
     (by decide) (by decide) (by decide) (by decide) (by decide) (by decide)⟩

/-- C10: an instance constructed with a nonzero sent value starts
directly in FUNDED (skipping AWAITING_PAYMENT) and records a Deposited
event at construction; the simple variant demands the sent value equal
the principal exactly, while the advanced variant demands it strictly
exceed escrowAmount + arbiterFee and records the excess as the gas pool;
a zero sent value starts the instance in AWAITING_PAYMENT. -/
theorem C10_constructor_variants :
    (∀ (now b s a A dl rp mgp mga fee : Nat),
      b ≠ 0 → s ≠ 0 → a ≠ 0 → A ≠ 0 → now < dl → rp ≠ 0 → mgp ≠ 0 → mga ≠ 0 →
      (∃ e : Escrow, mkEscrow now b s a A dl rp mgp mga fee 0 = .ok (e, []) ∧
        e.state = .awaitingPayment) ∧
      (∀ value, 0 < value → value ≤ A + fee →
        mkEscrow now b s a A dl rp mgp mga fee value
          = .error "Must include gas pool") ∧
      (∀ value, A + fee < value →
        ∃ e : Escrow, mkEscrow now b s a A dl rp mgp mga fee value
          = .ok (e, [Ev.depositEv b value (value - A - fee)]) ∧
          e.state = .funded ∧ e.gasPoolBalance = value - A - fee)) ∧
    (∀ (now b s a amt dl rp : Nat),
      b ≠ 0 → s ≠ 0 → amt ≠ 0 → now < dl → rp ≠ 0 →
      (∃ e : Simple.SEscrow, Simple.mk now b s a amt dl rp 0 = .ok (e, []) ∧
        e.state = .awaitingPayment) ∧
      (∀ value, 0 < value → value ≠ amt →
        Simple.mk now b s a amt dl rp value = .error "IncorrectAmount") ∧
      (∃ e : Simple.SEscrow, Simple.mk now b s a amt dl rp amt
        = .ok (e, [Ev.depositEv b amt 0]) ∧ e.state = .funded)) := by
  constructor
  · intro now b s a A dl rp mgp mga fee hb hs ha hA hdl hrp hmgp hmga
    have hnd : ¬(dl ≤ now) := by omega
    refine ⟨?_, ?_, ?_⟩
    · simp [mkEscrow, hb, hs, ha, hA, hnd, hrp, hmgp, hmga]
    · intro value hv1 hv2
      simp [mkEscrow, hb, hs, ha, hA, hnd, hrp, hmgp, hmga, hv1, hv2]
    · intro value hv
      have hv1 : 0 < value := by omega
      have hv2 : ¬(value ≤ A + fee) := by omega
      simp [mkEscrow, hb, hs, ha, hA, hnd, hrp, hmgp, hmga, hv1, hv2]
  · intro now b s a amt dl rp hb hs hA hdl hrp
    have hnd : ¬(dl ≤ now) := by omega
    refine ⟨?_, ?_, ?_⟩
    · simp [Simple.mk, hb, hs, hA, hnd, hrp]
    · intro value hv1 hv2
      simp [Simple.mk, hb, hs, hA, hnd, hrp, hv1, hv2]
    · have hv1 : 0 < amt := by omega
      simp [Simple.mk, hb, hs, hA, hnd, hrp, hv1]

/-- Witness for C10: the advanced constructor at value 0, at a value not
exceeding principal + fee, and at value 77; the simple constructor at
value 0, a wrong value, and the exact principal. -/
theorem C10_constructor_variants_witness :
    ((∃ e : Escrow, mkEscrow 0 1 2 3 50 10 4 1 1 7 0 = .ok (e, []) ∧
        e.state = .awaitingPayment) ∧
      (∀ value, 0 < value → value ≤ 50 + 7 →
        mkEscrow 0 1 2 3 50 10 4 1 1 7 value = .error "Must include gas pool") ∧
      (∀ value, 50 + 7 < value →
        ∃ e : Escrow, mkEscrow 0 1 2 3 50 10 4 1 1 7 value
          = .ok (e, [Ev.depositEv 1 value (value - 50 - 7)]) ∧
          e.state = .funded ∧ e.gasPoolBalance = value - 50 - 7)) ∧
    ((∃ e : Simple.SEscrow, Simple.mk 0 1 2 3 50 10 4 0 = .ok (e, []) ∧
        e.state = .awaitingPayment) ∧
      (∀ value, 0 < value → value ≠ 50 →
        Simple.mk 0 1 2 3 50 10 4 value = .error "IncorrectAmount") ∧
      (∃ e : Simple.SEscrow, Simple.mk 0 1 2 3 50 10 4 50
        = .ok (e, [Ev.depositEv 1 50 0]) ∧ e.state = .funded)) :=
  ⟨C10_constructor_variants.1 0 1 2 3 50 10 4 1 1 7 (by decide) (by decide) (by decide)
     (by decide) (by decide) (by decide) (by decide) (by decide),
   C10_constructor_variants.2 0 1 2 3 50 10 4 (by decide) (by decide) (by decide)
     (by decide) (by decide)⟩

end EscrowModel
